import Mathlib

/-!
Verification development for the FigmaToTailwind plugin core (src/code.ts).

The TypeScript source is shallowly embedded: JavaScript numbers are modelled
as exact rationals (the executable type `Q` below, kept in reduced form with a
positive denominator by its smart constructor so that structural equality is
value equality and every operation kernel-reduces), JS `Map`/`Set` (which
preserve insertion order) as association lists / deduplicating lists, fallible
host calls as `Option` / `Except`, and the per-run mutable state (asset
counter, asset map, used file-name set) as an explicit state record threaded
through an exception monad.  JS `Number`-to-string printing is modelled by a
fixed deterministic formatter `numToString`; the host's transcendental math
(`Math.atan2`, `Math.sqrt`) is modelled by an arbitrary but fixed
interpretation `JsMath` passed explicitly, since the claims proved here do not
depend on its values.
-/

namespace FigmaToTailwind

/-! ## Exact rationals with kernel-executable operations -/

/-- An exact rational: numerator and positive denominator, kept reduced by
`Q.norm`.  All values built by the embedding go through `Q.norm`, so
structural (decidable) equality coincides with value equality. -/
structure Q where
  num : ℤ
  den : ℤ
deriving DecidableEq, Repr

/-- Smart constructor: sign-normalize and divide out the gcd.  A zero
denominator (which the guarded source divisions never produce) is mapped
to 0. -/
def Q.norm (n d : ℤ) : Q :=
  if d = 0 then ⟨0, 1⟩
  else
    let n' := if d < 0 then -n else n
    let d' := if d < 0 then -d else d
    let g : ℤ := (Int.gcd n' d' : ℤ)
    if g = 0 then ⟨0, 1⟩ else ⟨n' / g, d' / g⟩

def Q.ofInt (i : ℤ) : Q := ⟨i, 1⟩

instance (n : ℕ) : OfNat Q n := ⟨⟨(n : ℤ), 1⟩⟩

def Q.add (a b : Q) : Q := Q.norm (a.num * b.den + b.num * a.den) (a.den * b.den)

def Q.sub (a b : Q) : Q := Q.norm (a.num * b.den - b.num * a.den) (a.den * b.den)

def Q.mul (a b : Q) : Q := Q.norm (a.num * b.num) (a.den * b.den)

def Q.div (a b : Q) : Q := Q.norm (a.num * b.den) (a.den * b.num)

def Q.neg (a : Q) : Q := ⟨-a.num, a.den⟩

instance : Add Q := ⟨Q.add⟩

instance : Sub Q := ⟨Q.sub⟩

instance : Mul Q := ⟨Q.mul⟩

instance : Div Q := ⟨Q.div⟩

instance : Neg Q := ⟨Q.neg⟩

instance : LT Q := ⟨fun a b => a.num * b.den < b.num * a.den⟩

instance : LE Q := ⟨fun a b => a.num * b.den ≤ b.num * a.den⟩

instance (a b : Q) : Decidable (a < b) :=
  inferInstanceAs (Decidable (a.num * b.den < b.num * a.den))

instance (a b : Q) : Decidable (a ≤ b) :=
  inferInstanceAs (Decidable (a.num * b.den ≤ b.num * a.den))

/-- JS `Math.abs`. -/
def Q.abs (a : Q) : Q := if a.num < 0 then ⟨-a.num, a.den⟩ else a

/-- JS `Math.max` on two numbers. -/
def Q.max (a b : Q) : Q := if a ≤ b then b else a

/-- JS `Math.min` on two numbers. -/
def Q.min (a b : Q) : Q := if a ≤ b then a else b

/-- Floor of a rational (numerator floor-divided by denominator). -/
def Q.floor (q : Q) : ℤ := Int.fdiv q.num q.den

/-! ## JavaScript numeric primitives -/

/-- JS `Math.round`: round half towards positive infinity. -/
def jsRound (q : Q) : ℤ := (q + Q.norm 1 2).floor

/-- JS truncation towards zero (used by the `%` remainder operator). -/
def jsTrunc (q : Q) : ℤ := if q.num < 0 then -Q.floor (-q) else q.floor

/-- JS `%` remainder: same sign as the dividend. -/
def jsMod (a b : Q) : Q := a - b * Q.ofInt (jsTrunc (a / b))

/-- JS `Number.prototype.toFixed(f)` as a value: round to `f` decimal places
(ECMA-262 picks the larger candidate on ties, like `Math.round`). -/
def jsToFixedVal (q : Q) (f : ℕ) : Q :=
  Q.norm (jsRound (q * Q.ofInt (10 ^ f))) (10 ^ f)

/-- Fixed deterministic model of JS number printing for interpolation into
strings.  Integers print exactly as in JS; non-integral rationals print as
`num/den`, a deterministic stand-in for JS float formatting (no claim proved
here depends on the exact digits, only on determinism). -/
def numToString (q : Q) : String :=
  if q.den = 1 then toString q.num
  else toString q.num ++ "/" ++ toString q.den

/-- Render `q.toFixed(f)` as a string: sign, integer part, point, `f` digits. -/
def jsToFixedString (q : Q) (f : ℕ) : String :=
  let scaled : ℤ := jsRound (q * Q.ofInt (10 ^ f))
  let sign := if scaled < 0 then "-" else ""
  let n := scaled.natAbs
  let intPart := n / 10 ^ f
  let fracPart := n % 10 ^ f
  let fracStr := toString fracPart
  let padded := String.mk (List.replicate (f - fracStr.length) '0') ++ fracStr
  if f = 0 then sign ++ toString intPart
  else sign ++ toString intPart ++ "." ++ padded

/-! ## Hex color primitives (source: `rgbaToHex`, `hexLuminance`, `hexHue`,
`hexSaturation`, `hueToColorName`, `fontStyleToWeight`) -/

/-- Lowercase hexadecimal rendering of a natural number, as JS
`Number.prototype.toString(16)` produces for non-negative integers. -/
def natToHexString (n : ℕ) : String := String.mk (Nat.toDigits 16 n)

/-- JS `Number.prototype.toString(16)` on an integer. -/
def intToHexString (i : ℤ) : String :=
  if i < 0 then "-" ++ natToHexString i.natAbs else natToHexString i.natAbs

/-- The two-digit channel helper `toHex` inside `rgbaToHex`. -/
def toHexChannel (n : Q) : String :=
  let hex := intToHexString (jsRound (n * 255))
  if hex.length = 1 then "0" ++ hex else hex

/-- `rgbaToHex(r, g, b, a)` from the source: channels in [0,1] are scaled to
0..255, rounded, hex-printed and padded; an alpha channel is appended only
when `a < 1`. -/
def rgbaToHex (r g b : Q) (a : Q := 1) : String :=
  let hex := "#" ++ toHexChannel r ++ toHexChannel g ++ toHexChannel b
  if a < 1 then hex ++ toHexChannel a else hex

/-- Value of one hexadecimal digit character, `none` when not a hex digit. -/
def hexDigitVal (c : Char) : Option ℕ :=
  if '0' ≤ c ∧ c ≤ '9' then some (c.toNat - 48)
  else if 'a' ≤ c ∧ c ≤ 'f' then some (c.toNat - 87)
  else if 'A' ≤ c ∧ c ≤ 'F' then some (c.toNat - 55)
  else none

/-- Maximal-hex-digit-prefix accumulator of JS `parseInt(s, 16)`. -/
def parseHexAux : List Char → ℕ → ℕ
  | [], acc => acc
  | c :: cs, acc =>
    match hexDigitVal c with
    | some v => parseHexAux cs (acc * 16 + v)
    | none => acc

/-- JS `parseInt(s, 16)` restricted to the shapes used by the source: parses
the maximal leading run of hex digits.  An input with no leading hex digit
yields `NaN` in JS; that case never arises on the well-formed hex strings the
source feeds in, and is modelled as 0 here. -/
def parseIntHex (cs : List Char) : Q :=
  match cs with
  | [] => 0
  | c :: _ =>
    match hexDigitVal c with
    | some _ => Q.ofInt (parseHexAux cs 0)
    | none => 0

/-- JS `String.prototype.replace('#', '')`: remove the first occurrence only. -/
def removeFirstHash : List Char → List Char
  | [] => []
  | c :: cs => if c = '#' then cs else c :: removeFirstHash cs

/-- The `raw` 6-char slice plus channel extraction shared by `hexLuminance`,
`hexHue` and `hexSaturation`: `hex.replace('#','').substring(0,6)` and the
three two-digit `parseInt(_, 16) / 255` channels. -/
def hexChannels (hex : String) : Q × Q × Q :=
  let raw := (removeFirstHash hex.data).take 6
  let r := parseIntHex (raw.take 2) / 255
  let g := parseIntHex ((raw.drop 2).take 2) / 255
  let b := parseIntHex ((raw.drop 4).take 2) / 255
  (r, g, b)

/-- `hexLuminance` from the source. -/
def hexLuminance (hex : String) : Q :=
  let (r, g, b) := hexChannels hex
  ((2126 : Q) / 10000) * r + ((7152 : Q) / 10000) * g + ((722 : Q) / 10000) * b

/-- `hexHue` from the source. -/
def hexHue (hex : String) : Q :=
  let (r, g, b) := hexChannels hex
  let mx := Q.max r (Q.max g b)
  let mn := Q.min r (Q.min g b)
  let d := mx - mn
  if d = 0 then 0
  else
    let h : Q :=
      if mx = r then jsMod ((g - b) / d) 6
      else if mx = g then (b - r) / d + 2
      else (r - g) / d + 4
    let h' : ℤ := jsRound (h * 60)
    if h' < 0 then Q.ofInt (h' + 360) else Q.ofInt h'

/-- `hexSaturation` from the source. -/
def hexSaturation (hex : String) : Q :=
  let (r, g, b) := hexChannels hex
  let mx := Q.max r (Q.max g b)
  let mn := Q.min r (Q.min g b)
  if mx = 0 then 0 else (mx - mn) / mx

/-- `hueToColorName` from the source. -/
def hueToColorName (hue saturation luminance : Q) : String :=
  if saturation < (8 : Q) / 100 then
    if luminance > (9 : Q) / 10 then "white"
    else if luminance < (1 : Q) / 10 then "black"
    else "gray"
  else if hue < 15 then "red"
  else if hue < 45 then "orange"
  else if hue < 70 then "yellow"
  else if hue < 160 then "green"
  else if hue < 200 then "teal"
  else if hue < 260 then "blue"
  else if hue < 290 then "purple"
  else if hue < 340 then "pink"
  else "red"

/-! ## Claim C9: hex round-trip on opaque colors -/

/-- The sixteen lowercase hexadecimal digit characters (`Char.ofNat 97`
is 'a'). -/
def lowerHexChars : List Char :=
  ['0', '1', '2', '3', '4', '5', '6', '7', '8', '9',
   Char.ofNat 97, 'b', 'c', 'd', 'e', 'f']

/-- A character is a lowercase hexadecimal digit. -/
def isLowerHexDigit (c : Char) : Bool := lowerHexChars.contains c

/-- A 6-digit lowercase hex color string such as "#0fa3b7". -/
def isValid6HexLower (s : String) : Bool :=
  match s.data with
  | c :: cs => c = '#' && cs.length = 6 && cs.all isLowerHexDigit
  | [] => false

theorem lowerHexDigit_exists (c : Char) (h : isLowerHexDigit c = true) :
    ∃ d : Fin 16, c = Nat.digitChar d.val := by
  have hmem : c ∈ lowerHexChars := by
    simpa [isLowerHexDigit, List.contains_eq_any_beq, List.any_eq_true] using h
  simp only [lowerHexChars, List.mem_cons, List.not_mem_nil, or_false] at hmem
  rcases hmem with rfl | rfl | rfl | rfl | rfl | rfl | rfl | rfl | rfl | rfl | rfl | rfl
    | rfl | rfl | rfl | rfl
  · exact ⟨0, by decide⟩
  · exact ⟨1, by decide⟩
  · exact ⟨2, by decide⟩
  · exact ⟨3, by decide⟩
  · exact ⟨4, by decide⟩
  · exact ⟨5, by decide⟩
  · exact ⟨6, by decide⟩
  · exact ⟨7, by decide⟩
  · exact ⟨8, by decide⟩
  · exact ⟨9, by decide⟩
  · exact ⟨10, by decide⟩
  · exact ⟨11, by decide⟩
  · exact ⟨12, by decide⟩
  · exact ⟨13, by decide⟩
  · exact ⟨14, by decide⟩
  · exact ⟨15, by decide⟩

theorem parse_pair_val (d1 d2 : Fin 16) :
    parseIntHex [Nat.digitChar d1.val, Nat.digitChar d2.val]
      = Q.ofInt ((16 * d1.val + d2.val : ℕ) : ℤ) := by
  fin_cases d1 <;> fin_cases d2 <;> decide

theorem channel_roundtrip (d1 d2 : Fin 16) :
    toHexChannel (Q.ofInt ((16 * d1.val + d2.val : ℕ) : ℤ) / 255)
      = String.mk [Nat.digitChar d1.val, Nat.digitChar d2.val] := by
  fin_cases d1 <;> fin_cases d2 <;> decide

/-- C9: for every 6-digit lowercase hex color string, extracting the r, g, b
components (two-digit hex integers divided by 255, as `hexLuminance` does) and
converting back with `rgbaToHex` at alpha = 1 reproduces the string. -/
theorem hex_roundtrip_identity (s : String) (h : isValid6HexLower s = true) :
    rgbaToHex (hexChannels s).1 (hexChannels s).2.1 (hexChannels s).2.2 1 = s := by
  obtain ⟨data⟩ := s
  rcases data with - | ⟨c0, - | ⟨c1, - | ⟨c2, - | ⟨c3, - | ⟨c4, - | ⟨c5,
    - | ⟨c6, - | ⟨c7, rest⟩⟩⟩⟩⟩⟩⟩⟩ <;>
    simp [isValid6HexLower] at h
  case cons.cons.cons.cons.cons.cons.cons.nil =>
    obtain ⟨rfl, h1, h2, h3, h4, h5, h6⟩ := h
    obtain ⟨d1, rfl⟩ := lowerHexDigit_exists c1 h1
    obtain ⟨d2, rfl⟩ := lowerHexDigit_exists c2 h2
    obtain ⟨d3, rfl⟩ := lowerHexDigit_exists c3 h3
    obtain ⟨d4, rfl⟩ := lowerHexDigit_exists c4 h4
    obtain ⟨d5, rfl⟩ := lowerHexDigit_exists c5 h5
    obtain ⟨d6, rfl⟩ := lowerHexDigit_exists c6 h6
    have hch : hexChannels ⟨'#' :: Nat.digitChar d1.val :: Nat.digitChar d2.val ::
        Nat.digitChar d3.val :: Nat.digitChar d4.val :: Nat.digitChar d5.val ::
        Nat.digitChar d6.val :: []⟩
        = (Q.ofInt ((16 * d1.val + d2.val : ℕ) : ℤ) / 255,
           Q.ofInt ((16 * d3.val + d4.val : ℕ) : ℤ) / 255,
           Q.ofInt ((16 * d5.val + d6.val : ℕ) : ℤ) / 255) := by
      simp only [hexChannels, removeFirstHash, List.take, List.drop, if_pos rfl]
      rw [parse_pair_val d1 d2, parse_pair_val d3 d4, parse_pair_val d5 d6]
    rw [hch]
    show rgbaToHex _ _ _ 1 = _
    rw [rgbaToHex, if_neg (by decide)]
    rw [channel_roundtrip d1 d2, channel_roundtrip d3 d4, channel_roundtrip d5 d6]
    rfl

/-- Witness for C9 at the concrete input "#1a2b3c". -/
theorem hex_roundtrip_identity_witness :
    isValid6HexLower "#1a2b3c" = true ∧
      rgbaToHex (hexChannels "#1a2b3c").1 (hexChannels "#1a2b3c").2.1
        (hexChannels "#1a2b3c").2.2 1 = "#1a2b3c" :=
  ⟨by decide, hex_roundtrip_identity "#1a2b3c" (by decide)⟩

/-! ## String scanning (JS `includes` and the regex literals of the source) -/

/-- Does the pattern occur at the head of the list? -/
def startsWithChars : List Char → List Char → Bool
  | [], _ => true
  | _ :: _, [] => false
  | p :: ps, c :: cs => p = c && startsWithChars ps cs

/-- Try a position test at every suffix, as regex search does. -/
def scanList (f : List Char → Bool) : List Char → Bool
  | [] => f []
  | c :: cs => f (c :: cs) || scanList f cs

/-- JS `String.prototype.includes` on char lists. -/
def containsSub (p : List Char) (l : List Char) : Bool :=
  scanList (startsWithChars p) l

/-- ASCII whitespace, modelling the regex class `\s` (whose further Unicode
members never occur in the patterns' surrounding checks). -/
def isWsChar (c : Char) : Bool := c = ' ' || c = '\t' || c = '\n' || c = '\r'

/-- One-position test for `p1\s*p2` (e.g. `fira\s*code`): `p2` starts right
after `p1` and an interleaving whitespace run. -/
def matchWSGapAt (p1 p2 : List Char) (l : List Char) : Bool :=
  startsWithChars p1 l && startsWithChars p2 ((l.drop p1.length).dropWhile isWsChar)

/-- Search for `p1\s*p2` anywhere in the string. -/
def containsWSGap (p1 p2 : List Char) (l : List Char) : Bool :=
  scanList (matchWSGapAt p1 p2) l

/-- One-position test for `p1[-\s]?p2` (the `sans[-\s]?serif` pattern). -/
def matchOptSepAt (p1 p2 : List Char) (l : List Char) : Bool :=
  startsWithChars p1 l &&
    (let rest := l.drop p1.length
     startsWithChars p2 rest ||
       (match rest with
        | [] => false
        | c :: cs => (c = '-' || isWsChar c) && startsWithChars p2 cs))

/-- Search for `p1[-\s]?p2` anywhere in the string. -/
def containsOptSep (p1 p2 : List Char) (l : List Char) : Bool :=
  scanList (matchOptSepAt p1 p2) l

/-- JS `toLowerCase` (ASCII case mapping suffices for the source's patterns). -/
def jsToLower (s : String) : List Char := s.data.map Char.toLower

/-! ## `classifyFontFamily` and claim C10 -/

/-- The regex `/mono|consolas|courier|fira\s*code|jetbrains|source\s*code|menlo/i`
applied to the lowercased family name. -/
def monoFontPattern (l : List Char) : Bool :=
  containsSub "mono".data l || containsSub "consolas".data l ||
    containsSub "courier".data l || containsWSGap "fira".data "code".data l ||
    containsSub "jetbrains".data l || containsWSGap "source".data "code".data l ||
    containsSub "menlo".data l

/-- The regex `/serif|garamond|georgia|times|palatino|baskerville|merriweather|playfair|lora/i`. -/
def serifFontPattern (l : List Char) : Bool :=
  containsSub "serif".data l || containsSub "garamond".data l ||
    containsSub "georgia".data l || containsSub "times".data l ||
    containsSub "palatino".data l || containsSub "baskerville".data l ||
    containsSub "merriweather".data l || containsSub "playfair".data l ||
    containsSub "lora".data l

/-- The regex `/sans[-\s]?serif/i`. -/
def sansSerifFontPattern (l : List Char) : Bool :=
  containsOptSep "sans".data "serif".data l

inductive FontKind where
  | sans
  | serif
  | mono
deriving DecidableEq, Repr

/-- `classifyFontFamily` from the source: monospace keywords first, then the
serif keywords with the explicit `sans-serif` carve-out, defaulting to sans. -/
def classifyFontFamily (family : String) : FontKind :=
  let lower := jsToLower family
  if monoFontPattern lower then .mono
  else if serifFontPattern lower then
    if sansSerifFontPattern lower then .sans else .serif
  else .sans

theorem startsWithChars_containsSub (p l : List Char)
    (h : startsWithChars p l = true) : containsSub p l = true := by
  cases l with
  | nil => simpa [containsSub, scanList] using h
  | cons c cs => simp [containsSub, scanList, h]

theorem containsSub_shift (p : List Char) (c : Char) (cs : List Char)
    (h : containsSub p cs = true) : containsSub p (c :: cs) = true := by
  simp [containsSub, scanList, containsSub] at h ⊢
  exact Or.inr h

theorem startsWithChars_append_right (p q l : List Char)
    (h : startsWithChars (p ++ q) l = true) : containsSub q l = true := by
  induction p generalizing l with
  | nil => exact startsWithChars_containsSub q l h
  | cons hd tl ih =>
    cases l with
    | nil => simp [startsWithChars] at h
    | cons c cs =>
      simp only [List.cons_append, startsWithChars, Bool.and_eq_true] at h
      exact containsSub_shift q c cs (ih cs h.2)

theorem containsSub_append_right (p q l : List Char)
    (h : containsSub (p ++ q) l = true) : containsSub q l = true := by
  induction l with
  | nil => exact startsWithChars_append_right p q [] h
  | cons c cs ih =>
    simp only [containsSub, scanList, Bool.or_eq_true] at h
    rcases h with h | h
    · exact startsWithChars_append_right p q (c :: cs) h
    · exact containsSub_shift q c cs (ih h)

theorem scanList_mono (f g : List Char → Bool)
    (hfg : ∀ l', f l' = true → g l' = true) (l : List Char)
    (h : scanList f l = true) : scanList g l = true := by
  induction l with
  | nil => exact hfg [] h
  | cons c cs ih =>
    simp only [scanList, Bool.or_eq_true] at h ⊢
    rcases h with h | h
    · exact Or.inl (hfg _ h)
    · exact Or.inr (ih h)

theorem startsWithChars_append_split (p1 p2 l : List Char)
    (h : startsWithChars (p1 ++ p2) l = true) :
    startsWithChars p1 l = true ∧ startsWithChars p2 (l.drop p1.length) = true := by
  induction p1 generalizing l with
  | nil => simpa [startsWithChars] using h
  | cons hd tl ih =>
    cases l with
    | nil => simp [startsWithChars] at h
    | cons c cs =>
      simp only [List.cons_append, startsWithChars, Bool.and_eq_true] at h ⊢
      obtain ⟨hc, hrest⟩ := h
      obtain ⟨h1, h2⟩ := ih cs hrest
      exact ⟨⟨hc, h1⟩, by simpa using h2⟩

theorem sansSerif_at_pointwise (l : List Char)
    (h : startsWithChars "sans-serif".data l = true) :
    matchOptSepAt "sans".data "serif".data l = true := by
  have hsplit : startsWithChars ("sans".data ++ "-serif".data) l = true := h
  obtain ⟨h1, h2⟩ := startsWithChars_append_split "sans".data "-serif".data l hsplit
  have h2' : startsWithChars "-serif".data (l.drop 4) = true := h2
  cases hd : l.drop 4 with
  | nil => rw [hd] at h2'; simp [startsWithChars] at h2'
  | cons c cs =>
    rw [hd] at h2'
    simp only [show "-serif".data = '-' :: "serif".data from rfl, startsWithChars,
      Bool.and_eq_true, decide_eq_true_eq] at h2'
    obtain ⟨hc, hs⟩ := h2'
    subst hc
    simp [matchOptSepAt, h1, hd, hs]

/-- C10: a font family whose name contains "sans-serif" (case-insensitively)
and does not match the monospace keyword pattern is classified as sans, never
serif, even though its name also contains "serif". -/
theorem classifyFontFamily_sans_serif (family : String)
    (hss : containsSub "sans-serif".data (jsToLower family) = true)
    (hmono : monoFontPattern (jsToLower family) = false) :
    classifyFontFamily family = FontKind.sans := by
  have hserif : serifFontPattern (jsToLower family) = true := by
    have : containsSub "serif".data (jsToLower family) = true :=
      containsSub_append_right "sans-".data "serif".data (jsToLower family) hss
    simp [serifFontPattern, this]
  have hsans : sansSerifFontPattern (jsToLower family) = true :=
    scanList_mono _ _ sansSerif_at_pointwise (jsToLower family) hss
  simp [classifyFontFamily, hmono, hserif, hsans]

/-- Witness for C10 at the concrete family name "PT Sans-Serif". -/
theorem classifyFontFamily_sans_serif_witness :
    containsSub "sans-serif".data (jsToLower "PT Sans-Serif") = true ∧
      monoFontPattern (jsToLower "PT Sans-Serif") = false ∧
      classifyFontFamily "PT Sans-Serif" = FontKind.sans :=
  ⟨by decide, by decide, classifyFontFamily_sans_serif "PT Sans-Serif" (by decide) (by decide)⟩

/-! ## Canonical Tailwind scales (static data from the source) -/

def TW_TEXT_SCALE : List (String × Q) :=
  [("xs", (75 : Q) / 100), ("sm", (875 : Q) / 1000), ("base", 1),
   ("lg", (1125 : Q) / 1000), ("xl", (125 : Q) / 100), ("2xl", (15 : Q) / 10),
   ("3xl", (1875 : Q) / 1000), ("4xl", (225 : Q) / 100), ("5xl", 3),
   ("6xl", (375 : Q) / 100), ("7xl", (45 : Q) / 10), ("8xl", 6), ("9xl", 8)]

def TW_LEADING_SCALE : List (String × Q) :=
  [("none", 1), ("tight", (125 : Q) / 100), ("snug", (1375 : Q) / 1000),
   ("normal", (15 : Q) / 10), ("relaxed", (1625 : Q) / 1000), ("loose", 2)]

/-- `TW_WEIGHT_MAP` as a lookup function (JS object keyed by weight). -/
def TW_WEIGHT_MAP (w : ℕ) : Option String :=
  if w = 100 then some "thin" else if w = 200 then some "extralight"
  else if w = 300 then some "light" else if w = 400 then some "normal"
  else if w = 500 then some "medium" else if w = 600 then some "semibold"
  else if w = 700 then some "bold" else if w = 800 then some "extrabold"
  else if w = 900 then some "black" else none

def TW_RADIUS_SCALE : List (String × Q) :=
  [("xs", 2), ("sm", 4), ("md", 6), ("lg", 8), ("xl", 12), ("2xl", 16),
   ("3xl", 24), ("full", 9999)]

def TW_SHADOW_NAMES : List String := ["xs", "sm", "md", "lg", "xl", "2xl"]

/-! ## JS `Set` / `Map` models (insertion-ordered) -/

/-- JS `Set.prototype.add`. -/
def setAdd (l : List String) (x : String) : List String :=
  if l.contains x then l else l ++ [x]

/-- JS `Map.prototype.get` (first matching key). -/
def alGet {κ ν : Type} [DecidableEq κ] (l : List (κ × ν)) (k : κ) : Option ν :=
  match l with
  | [] => none
  | (k', v) :: rest => if k' = k then some v else alGet rest k

/-- JS `Map.prototype.set`: update in place when the key exists (keeping its
insertion position), append otherwise. -/
def alSet {κ ν : Type} [DecidableEq κ] (l : List (κ × ν)) (k : κ) (v : ν) :
    List (κ × ν) :=
  match l with
  | [] => [(k, v)]
  | (k', v') :: rest =>
    if k' = k then (k, v) :: rest else (k', v') :: alSet rest k v

/-! ## Scale snapping (source: `snapFontSizeToTailwind`,
`snapLineHeightToTailwind`, `snapRadiusToTailwind`, `snapDuration`) -/

/-- The shared snap loop: walk the scale, skip names in the used set, keep
the strictly closest step.  `none` as the best distance models the JS
`Infinity` initial value. -/
def snapLoop (target : Q) (used : List String) :
    List (String × Q) → (String × Q) → Option Q → (String × Q)
  | [], best, _ => best
  | step :: steps, best, bestDist =>
    if used.contains step.1 then snapLoop target used steps best bestDist
    else
      let dist := Q.abs (step.2 - target)
      match bestDist with
      | none => snapLoop target used steps step (some dist)
      | some bd =>
        if dist < bd then snapLoop target used steps step (some dist)
        else snapLoop target used steps best bestDist

/-- `snapFontSizeToTailwind(rem, usedNames)`: the chosen name plus the updated
used-name set (the source mutates the set in place). -/
def snapFontSizeToTailwind (rem : Q) (usedNames : List String) :
    String × List String :=
  let best := (snapLoop rem usedNames TW_TEXT_SCALE ("xs", (75 : Q) / 100) none).1
  (best, setAdd usedNames best)

/-- `snapLineHeightToTailwind(lh)`: same loop with no used-name exclusion
(modelled by the empty used set, which makes the skip vacuous). -/
def snapLineHeightToTailwind (lh : Q) : String :=
  (snapLoop lh [] TW_LEADING_SCALE ("none", 1) none).1

/-- The loop of `snapRadiusToTailwind`: additionally always skips the "full"
step (handled before the loop). -/
def radiusSnapLoop (px : Q) (used : List String) :
    List (String × Q) → (String × Q) → Option Q → (String × Q)
  | [], best, _ => best
  | step :: steps, best, bestDist =>
    if step.1 = "full" then radiusSnapLoop px used steps best bestDist
    else if used.contains step.1 then radiusSnapLoop px used steps best bestDist
    else
      let dist := Q.abs (step.2 - px)
      match bestDist with
      | none => radiusSnapLoop px used steps step (some dist)
      | some bd =>
        if dist < bd then radiusSnapLoop px used steps step (some dist)
        else radiusSnapLoop px used steps best bestDist

/-- `snapRadiusToTailwind(px, usedNames)`. -/
def snapRadiusToTailwind (px : Q) (usedNames : List String) :
    String × List String :=
  if (500 : Q) ≤ px then ("full", setAdd usedNames "full")
  else
    let best := (radiusSnapLoop px usedNames TW_RADIUS_SCALE ("xs", 2) none).1
    (best, setAdd usedNames best)

/-- The duration snap scale. -/
def DURATION_SCALE : List Q := [75, 100, 150, 200, 300, 500, 700, 1000]

def snapDurationLoop (ms : Q) : List Q → Q → Option Q → Q
  | [], best, _ => best
  | s :: rest, best, bestDist =>
    let dist := Q.abs (s - ms)
    match bestDist with
    | none => snapDurationLoop ms rest s (some dist)
    | some bd =>
      if dist < bd then snapDurationLoop ms rest s (some dist)
      else snapDurationLoop ms rest best bestDist

/-- `snapDuration(ms)` from the source. -/
def snapDuration (ms : Q) : Q := snapDurationLoop ms DURATION_SCALE 75 none

/-! ## Claim C4: exclusivity of font-size snapping -/

theorem setAdd_contains (l : List String) (x : String) :
    (setAdd l x).contains x = true := by
  unfold setAdd
  by_cases h : l.contains x = true
  · rw [if_pos h]; exact h
  · rw [if_neg h]; simp

theorem snapLoop_all_used (target : Q) (used : List String)
    (steps : List (String × Q)) (best : String × Q) (bd : Option Q)
    (h : ∀ s ∈ steps, used.contains s.1 = true) :
    snapLoop target used steps best bd = best := by
  induction steps generalizing best bd with
  | nil => rfl
  | cons step rest ih =>
    have hstep : used.contains step.1 = true := h step (List.mem_cons_self _ _)
    rw [snapLoop, if_pos hstep]
    exact ih best bd (fun s hs => h s (List.mem_cons_of_mem _ hs))

theorem snapLoop_keeps_unused (target : Q) (used : List String)
    (steps : List (String × Q)) (best : String × Q) (d : Q)
    (hbest : used.contains best.1 = false) :
    used.contains (snapLoop target used steps best (some d)).1 = false := by
  induction steps generalizing best d with
  | nil => simpa [snapLoop] using hbest
  | cons step rest ih =>
    rw [snapLoop]
    by_cases hstep : used.contains step.1 = true
    · rw [if_pos hstep]; exact ih best d hbest
    · simp only [Bool.not_eq_true] at hstep
      rw [if_neg (by rw [hstep]; exact Bool.false_ne_true)]
      by_cases hd : Q.abs (step.2 - target) < d
      · simpa [hd] using ih step _ hstep
      · simpa [hd] using ih best d hbest

theorem snapLoop_none_finds_unused (target : Q) (used : List String)
    (steps : List (String × Q)) (best : String × Q)
    (h : ∃ s ∈ steps, used.contains s.1 = false) :
    used.contains (snapLoop target used steps best none).1 = false := by
  induction steps generalizing best with
  | nil => simp at h
  | cons step rest ih =>
    rw [snapLoop]
    by_cases hstep : used.contains step.1 = true
    · rw [if_pos hstep]
      obtain ⟨s, hs, hsu⟩ := h
      rcases List.mem_cons.mp hs with rfl | hs'
      · rw [hstep] at hsu; cases hsu
      · exact ih best ⟨s, hs', hsu⟩
    · simp only [Bool.not_eq_true] at hstep
      rw [if_neg (by rw [hstep]; exact Bool.false_ne_true)]
      exact snapLoop_keeps_unused target used rest step _ hstep

/-- C4: `snapFontSizeToTailwind(rem, used)` never returns a name already in
the used set unless every name of the text scale is used; when every scale
name is used it returns the scale's first entry ("xs"); and the chosen name
is added to the used set. -/
theorem snapFontSizeToTailwind_spec (rem : Q) (used : List String) :
    (¬ (∀ s ∈ TW_TEXT_SCALE, used.contains s.1 = true) →
      used.contains (snapFontSizeToTailwind rem used).1 = false) ∧
    ((∀ s ∈ TW_TEXT_SCALE, used.contains s.1 = true) →
      (snapFontSizeToTailwind rem used).1 = "xs" ∧
        (TW_TEXT_SCALE.map Prod.fst).head? = some "xs") ∧
    ((snapFontSizeToTailwind rem used).2).contains
      (snapFontSizeToTailwind rem used).1 = true := by
  refine ⟨?_, ?_, setAdd_contains _ _⟩
  · intro hno
    have hex : ∃ s ∈ TW_TEXT_SCALE, used.contains s.1 = false := by
      by_contra hc
      push_neg at hc
      exact hno fun s hs => by
        have := hc s hs
        simpa [Bool.not_eq_false] using this
    exact snapLoop_none_finds_unused rem used TW_TEXT_SCALE _ hex
  · intro hall
    constructor
    · show (snapLoop rem used TW_TEXT_SCALE ("xs", (75 : Q) / 100) none).1 = "xs"
      rw [snapLoop_all_used rem used TW_TEXT_SCALE _ none hall]
    · rfl

/-- Witness for C4 at `rem = 1`, `used = ["xs", "base"]`: the snapped name is
not an already-used one. -/
theorem snapFontSizeToTailwind_spec_witness :
    (["xs", "base"] : List String).contains
      (snapFontSizeToTailwind 1 ["xs", "base"]).1 = false :=
  (snapFontSizeToTailwind_spec 1 ["xs", "base"]).1 (by decide)

/-! ## Token registry (source: `TokenRegistry`, `createTokenRegistry`,
`registerColor`, `registerRadius`, `TW_COLORS`) -/

structure GradientStop where
  color : String
  position : Q
deriving DecidableEq, Repr

structure GradientData where
  gtype : String
  angle : Q
  stops : List GradientStop
  ellipseX : Option Q := none
  ellipseY : Option Q := none
  centerX : Option Q := none
  centerY : Option Q := none
deriving DecidableEq, Repr

structure TokenRegistry where
  colors : List (String × String)
  fontSizes : List (Q × String)
  spacing : List (Q × String)
  radii : List (Q × String)
  shadows : List (String × String)
  gradients : List (String × GradientData)
deriving DecidableEq, Repr

def createTokenRegistry : TokenRegistry :=
  { colors := [], fontSizes := [], spacing := [], radii := [], shadows := [],
    gradients := [] }

/-- The Tailwind default palette `TW_COLORS` (hex → name). -/
def TW_COLORS : List (String × String) :=
  [("#000000", "black"), ("#ffffff", "white"),
   ("#f8fafc", "slate-50"), ("#f1f5f9", "slate-100"), ("#e2e8f0", "slate-200"),
   ("#cbd5e1", "slate-300"), ("#94a3b8", "slate-400"), ("#64748b", "slate-500"),
   ("#475569", "slate-600"), ("#334155", "slate-700"), ("#1e293b", "slate-800"),
   ("#0f172a", "slate-900"), ("#020617", "slate-950"),
   ("#fef2f2", "red-50"), ("#fee2e2", "red-100"), ("#fecaca", "red-200"),
   ("#fca5a5", "red-300"), ("#f87171", "red-400"), ("#ef4444", "red-500"),
   ("#dc2626", "red-600"), ("#b91c1c", "red-700"), ("#991b1b", "red-800"),
   ("#7f1d1d", "red-900"),
   ("#eff6ff", "blue-50"), ("#dbeafe", "blue-100"), ("#bfdbfe", "blue-200"),
   ("#93c5fd", "blue-300"), ("#60a5fa", "blue-400"), ("#3b82f6", "blue-500"),
   ("#2563eb", "blue-600"), ("#1d4ed8", "blue-700"), ("#1e40af", "blue-800"),
   ("#1e3a8a", "blue-900"),
   ("#f0fdf4", "green-50"), ("#dcfce7", "green-100"), ("#bbf7d0", "green-200"),
   ("#86efac", "green-300"), ("#4ade80", "green-400"), ("#22c55e", "green-500"),
   ("#16a34a", "green-600"), ("#15803d", "green-700"), ("#166534", "green-800"),
   ("#14532d", "green-900"),
   ("#fefce8", "yellow-50"), ("#fef9c3", "yellow-100"), ("#fef08a", "yellow-200"),
   ("#fde047", "yellow-300"), ("#facc15", "yellow-400"), ("#eab308", "yellow-500"),
   ("#ca8a04", "yellow-600"), ("#a16207", "yellow-700"), ("#854d0e", "yellow-800"),
   ("#713f12", "yellow-900"),
   ("#f5f3ff", "violet-50"), ("#ede9fe", "violet-100"), ("#ddd6fe", "violet-200"),
   ("#c4b5fd", "violet-300"), ("#a78bfa", "violet-400"), ("#8b5cf6", "violet-500"),
   ("#7c3aed", "violet-600"), ("#6d28d9", "violet-700"), ("#5b21b6", "violet-800"),
   ("#4c1d95", "violet-900")]

/-- `hexToTailwindColor(hex, extractedColors)`: theme colors first, then the
Tailwind defaults, else an arbitrary-value literal. -/
def hexToTailwindColor (hex : String)
    (extractedColors : List (String × String) := []) : String :=
  let lower := String.mk (jsToLower hex)
  match alGet extractedColors lower with
  | some name => name
  | none =>
    match alGet TW_COLORS lower with
    | some name => name
    | none => "[" ++ hex ++ "]"

/-- `registerColor(registry, hex, extractedColors)`: memo hit, theme hit,
Tailwind-default hit, else an auto-generated hue-family name whose shade step
is 500 for the first family member and `(existing + 1) * 100` afterwards. -/
def registerColor (registry : TokenRegistry) (hex : String)
    (extractedColors : List (String × String) := []) : String × TokenRegistry :=
  let lower := String.mk (jsToLower hex)
  match alGet registry.colors lower with
  | some name => (name, registry)
  | none =>
    match alGet extractedColors lower with
    | some name => (name, { registry with colors := alSet registry.colors lower name })
    | none =>
      match alGet TW_COLORS lower with
      | some name => (name, { registry with colors := alSet registry.colors lower name })
      | none =>
        let hue := hexHue lower
        let sat := hexSaturation lower
        let lum := hexLuminance lower
        let family := hueToColorName hue sat lum
        let existingInFamily :=
          (registry.colors.map Prod.snd).filter
            (fun n => startsWithChars family.data n.data)
        let step : ℕ :=
          if existingInFamily.length = 0 then 500
          else (existingInFamily.length + 1) * 100
        let name := family ++ "-" ++ toString step
        (name, { registry with colors := alSet registry.colors lower name })

/-- JS `Array.prototype.reduce` body used by `registerRadius`: closest scale
step, first element as the initial accumulator. -/
def reduceClosest (px : Q) : List (String × Q) → (String × Q) → (String × Q)
  | [], best => best
  | s :: rest, best =>
    reduceClosest px rest
      (if Q.abs (s.2 - px) < Q.abs (best.2 - px) then s else best)

/-- `reduce` without an initial value: seed with the first element.  The empty
case (which would throw in JS) cannot occur on the non-empty constant scales
it is applied to. -/
def jsReduceClosest (px : Q) (l : List (String × Q)) : String × Q :=
  match l with
  | [] => ("", 0)
  | first :: rest => reduceClosest px rest first

/-- `registerRadius(registry, px)` from the source. -/
def registerRadius (registry : TokenRegistry) (px : Q) : String × TokenRegistry :=
  match alGet registry.radii px with
  | some name => (name, registry)
  | none =>
    if (500 : Q) ≤ px then
      ("full", { registry with radii := alSet registry.radii px "full" })
    else
      let closest :=
        jsReduceClosest px (TW_RADIUS_SCALE.filter (fun s => s.1 ≠ "full"))
      let usedNames := registry.radii.map Prod.snd
      let name :=
        if usedNames.contains closest.1 then closest.1 ++ "-" ++ numToString px
        else closest.1
      (name, { registry with radii := alSet registry.radii px name })

/-! ## Claim C5: pill radii always snap to "full" -/

/-- Registry states reachable by a sequence of `registerRadius` calls. -/
def replayRadii (pxs : List Q) : TokenRegistry :=
  pxs.foldl (fun r p => (registerRadius r p).2) createTokenRegistry

/-- Invariant: every registered radius at or above the pill threshold is
named "full". -/
def radiiInv (reg : TokenRegistry) : Prop :=
  ∀ p v, alGet reg.radii p = some v → (500 : Q) ≤ p → v = "full"

theorem alGet_alSet {κ ν : Type} [DecidableEq κ] (l : List (κ × ν)) (k k' : κ)
    (v : ν) : alGet (alSet l k v) k' = if k = k' then some v else alGet l k' := by
  induction l with
  | nil => rfl
  | cons kv rest ih =>
    obtain ⟨k0, v0⟩ := kv
    simp only [alSet]
    by_cases h0 : k0 = k
    · subst h0
      rw [if_pos rfl]
      by_cases h1 : k0 = k'
      · subst h1; simp [alGet]
      · simp [alGet, h1]
    · rw [if_neg h0]
      simp only [alGet, ih]
      by_cases h1 : k0 = k'
      · rw [if_pos h1, if_neg (fun hk => h0 (h1.trans hk.symm)), if_pos h1]
      · simp only [if_neg h1]

theorem radiiInv_register (reg : TokenRegistry) (p : Q) (hinv : radiiInv reg) :
    radiiInv (registerRadius reg p).2 := by
  unfold registerRadius
  cases hget : alGet reg.radii p with
  | some name => exact hinv
  | none =>
    by_cases hp : (500 : Q) ≤ p
    · rw [if_pos hp]
      intro p' v' hget' hp'
      rw [alGet_alSet] at hget'
      by_cases he : p = p'
      · rw [if_pos he] at hget'; exact (Option.some_inj.mp hget').symm
      · rw [if_neg he] at hget'; exact hinv p' v' hget' hp'
    · rw [if_neg hp]
      intro p' v' hget' hp'
      simp only [alGet_alSet] at hget'
      by_cases he : p = p'
      · exact absurd (he ▸ hp') hp
      · rw [if_neg he] at hget'; exact hinv p' v' hget' hp'

theorem radiiInv_replay (pxs : List Q) : radiiInv (replayRadii pxs) := by
  suffices h : ∀ reg, radiiInv reg →
      radiiInv (pxs.foldl (fun r p => (registerRadius r p).2) reg) by
    exact h createTokenRegistry (fun p v hget _ => by simp [createTokenRegistry, alGet] at hget)
  induction pxs with
  | nil => intro reg hinv; exact hinv
  | cons p rest ih => intro reg hinv; exact ih _ (radiiInv_register reg p hinv)

/-- C5: a radius at or above the pill threshold (500px in the source, in
particular 9999px) snaps to "full" in `snapRadiusToTailwind` for every
used-name set, and in `registerRadius` for every registry state reachable by
`registerRadius` calls. -/
theorem radius_pill_always_full (px : Q) (h : (500 : Q) ≤ px)
    (used : List String) (pxs : List Q) :
    (snapRadiusToTailwind px used).1 = "full" ∧
      (registerRadius (replayRadii pxs) px).1 = "full" := by
  constructor
  · unfold snapRadiusToTailwind
    rw [if_pos h]
  · unfold registerRadius
    cases hget : alGet (replayRadii pxs).radii px with
    | some name =>
      simpa using radiiInv_replay pxs px name hget h
    | none => rw [if_pos h]

/-- Witness for C5 at radius 9999px with one prior 4px registration. -/
theorem radius_pill_always_full_witness :
    (snapRadiusToTailwind 9999 []).1 = "full" ∧
      (registerRadius (replayRadii [4]) 9999).1 = "full" :=
  radius_pill_always_full 9999 (by decide) [] [4]

/-! ## Claim C3: `registerColor` name uniqueness (refuted by evaluation) -/

/-- Five distinct red hexes, none of them Tailwind defaults. -/
def redSequence : List String :=
  ["#fe0000", "#fd0000", "#fc0000", "#fb0000", "#fa0000"]

/-- The registry after registering the five reds in order. -/
def redSequenceRegistry : TokenRegistry :=
  redSequence.foldl (fun r h => (registerColor r h).2) createTokenRegistry

/-- C3 fails on the code: after five distinct red hexes are registered in one
run, the first and the fifth both receive the name "red-500" — the same
generated name is assigned to two different raw hex values, because the
auto-step formula `(existing + 1) * 100` wraps back to 500 at the fifth
family member (steps go 500, 200, 300, 400, 500). -/
theorem registerColor_name_collision :
    alGet redSequenceRegistry.colors "#fe0000" = some "red-500" ∧
      alGet redSequenceRegistry.colors "#fa0000" = some "red-500" ∧
      ("#fe0000" : String) ≠ "#fa0000" := by decide

/-! ## `classifyColorsForTailwind` (source lines 511-616) and claim C2 -/

/-- One scanned color: hex, usage count, roles observed (fill/stroke/text). -/
structure ScannedColor where
  hex : String
  count : Q
  usedAs : List String
deriving DecidableEq, Repr

/-- Stable insertion used to model JS `Array.prototype.sort` (spec-mandated
stable) under a numeric comparator: `lt y x` means y sorts strictly before
x. -/
def insertBy {α : Type} (lt : α → α → Bool) (x : α) : List α → List α
  | [] => [x]
  | y :: ys => if lt y x then y :: insertBy lt x ys else x :: y :: ys

/-- JS stable `sort(cmp)` for a consistent numeric comparator. -/
def jsSortStable {α : Type} (cmp : α → α → Q) (l : List α) : List α :=
  l.foldr (insertBy (fun y x => decide (cmp y x < 0))) []

/-- The `pick` helper with a sort function: unassigned candidates, sorted,
first element. -/
def pickSorted (assigned : List String) (cmp : ScannedColor → ScannedColor → Q)
    (list : List ScannedColor) : Option ScannedColor :=
  (jsSortStable cmp (list.filter (fun c => !(assigned.contains c.hex)))).head?

/-- The `pick` helper without a sort function: first unassigned candidate. -/
def pickPlain (assigned : List String) (list : List ScannedColor) :
    Option ScannedColor :=
  (list.filter (fun c => !(assigned.contains c.hex))).head?

/-- Append a rule's result to the semantic list and the assigned set. -/
def classifyStep (st : List (String × String) × List String) (name : String)
    (res : Option ScannedColor) : List (String × String) × List String :=
  match res with
  | some c => (st.1 ++ [(name, c.hex)], setAdd st.2 c.hex)
  | none => st

/-- Filter a list keeping elements whose index satisfies the predicate
(JS `filter((_, i) => ...)`). -/
def idxFilter {α : Type} (l : List α) (p : ℕ → Bool) : List α :=
  (l.enum.filter (fun q => p q.1)).map Prod.snd

/-- The fixed shade ramp of the palette grouping. -/
def SHADE_STEPS : List ℕ := [50, 100, 200, 300, 400, 500, 600, 700, 800, 900]

/-- Group the leftover colors by hue family, then label shades (sorted by
descending luminance) with ramp steps; an evenly spaced subset of the ramp is
picked when the family has at most as many members as the ramp. -/
def buildPalette (remaining : List ScannedColor) : List (String × String) :=
  let grouped : List (String × List (String × Q)) :=
    remaining.foldl (fun m c =>
      let family := hueToColorName (hexHue c.hex) (hexSaturation c.hex)
        (hexLuminance c.hex)
      match alGet m family with
      | some shades => alSet m family (shades ++ [(c.hex, hexLuminance c.hex)])
      | none => alSet m family [(c.hex, hexLuminance c.hex)]) []
  grouped.foldl (fun acc fam =>
    let shades := jsSortStable (fun a b => b.2 - a.2) fam.2
    if shades.length = 1 then
      acc ++ [(fam.1 ++ "-500", ((shades.headD ("", 0)).1))]
    else
      let pickSteps :=
        if shades.length ≤ SHADE_STEPS.length then
          (idxFilter SHADE_STEPS
            (fun i => i % ((SHADE_STEPS.length + shades.length - 1) / shades.length) = 0)).take
            shades.length
        else SHADE_STEPS
      acc ++ (List.zip shades pickSteps).map
        (fun p => (fam.1 ++ "-" ++ toString p.2, p.1.1))) []

/-- `classifyColorsForTailwind` from the source: the nine ordered semantic
role rules, each consuming at most one unassigned color, then the hue-family
palette for the leftovers.  Returns (semantic, palette) as (name, hex)
lists. -/
def classifyColorsForTailwind (colors : List ScannedColor) :
    List (String × String) × List (String × String) :=
  if colors.length = 0 then ([], [])
  else
    let fillColors := colors.filter (fun c => c.usedAs.contains "fill")
    let textColors := colors.filter (fun c => c.usedAs.contains "text")
    let strokeColors := colors.filter (fun c => c.usedAs.contains "stroke")
    let st0 : List (String × String) × List String := ([], [])
    let bg := pickSorted st0.2
      (fun a b => hexLuminance b.hex - hexLuminance a.hex) fillColors
    let st1 := classifyStep st0 "background" bg
    let fg := pickSorted st1.2
      (fun a b => hexLuminance a.hex - hexLuminance b.hex) textColors
    let st2 := classifyStep st1 "foreground" fg
    let primary := pickSorted st2.2 (fun a b => b.count - a.count)
      (colors.filter (fun c => decide ((3 : Q) / 10 < hexSaturation c.hex)))
    let st3 := classifyStep st2 "primary" primary
    let border := pickSorted st3.2 (fun a b => b.count - a.count) strokeColors
    let st4 := classifyStep st3 "border" border
    let muted := pickPlain st4.2
      (fillColors.filter (fun c =>
        decide ((85 : Q) / 100 < hexLuminance c.hex) &&
          decide (hexSaturation c.hex < (15 : Q) / 100)))
    let st5 := classifyStep st4 "muted" muted
    let mutedFg := pickSorted st5.2 (fun a b => b.count - a.count)
      (textColors.filter (fun c => decide ((4 : Q) / 10 < hexLuminance c.hex)))
    let st6 := classifyStep st5 "muted-foreground" mutedFg
    let secondary := pickSorted st6.2 (fun a b => b.count - a.count)
      (colors.filter (fun c => decide ((25 : Q) / 100 < hexSaturation c.hex)))
    let st7 := classifyStep st6 "secondary" secondary
    let destructive := pickSorted st7.2 (fun a b => b.count - a.count)
      (colors.filter (fun c =>
        (decide (hexHue c.hex < 20) || decide ((340 : Q) < hexHue c.hex)) &&
          decide ((3 : Q) / 10 < hexSaturation c.hex)))
    let st8 := classifyStep st7 "destructive" destructive
    let accent := pickSorted st8.2 (fun a b => b.count - a.count)
      (colors.filter (fun c => decide ((2 : Q) / 10 < hexSaturation c.hex)))
    let st9 := classifyStep st8 "accent" accent
    let remaining := colors.filter (fun c => !(st9.2.contains c.hex))
    (st9.1, buildPalette remaining)

/-! ## Claim C2: the union property fails on a six-member hue family -/

/-- Seven distinct stroke-only colors: six grays and a dominant white. -/
def grayPopulation : List ScannedColor :=
  [⟨"#707070", 1, ["stroke"]⟩, ⟨"#606060", 1, ["stroke"]⟩,
   ⟨"#505050", 1, ["stroke"]⟩, ⟨"#404040", 1, ["stroke"]⟩,
   ⟨"#303030", 1, ["stroke"]⟩, ⟨"#202020", 1, ["stroke"]⟩,
   ⟨"#ffffff", 5, ["stroke"]⟩]

/-- C2 fails on the code: on seven distinct colors (white becomes the border
role; six grays remain for the palette) the shade-step subset for a 6-member
family has only 5 entries — `steps.filter(i % ceil(10/6) == 0)` yields five
ramp steps — and the palette loop drops the sixth shade, "#202020".  The
semantic ∪ palette hex multiset therefore has 6 elements, not 7: the input
population is not covered exactly once. -/
theorem classifyColors_union_not_exact :
    (grayPopulation.map ScannedColor.hex).Nodup ∧
      grayPopulation.length = 7 ∧
      (grayPopulation.map ScannedColor.hex).contains "#202020" = true ∧
      ((classifyColorsForTailwind grayPopulation).1.map Prod.snd ++
        (classifyColorsForTailwind grayPopulation).2.map Prod.snd).length = 6 ∧
      ((classifyColorsForTailwind grayPopulation).1.map Prod.snd ++
        (classifyColorsForTailwind grayPopulation).2.map Prod.snd).contains
        "#202020" = false := by decide

/-! ## The design-node data model (the host's `SceneNode` shape, §3/§6)

Duck-typed capability checks of the source (`'fills' in node`, `typeof x ===
'number'`, `figma.mixed`) are modelled with `Option` fields: `none` means the
field is absent (or `mixed` where noted).  `node.parent`, which the source
only reads width/height from, is modelled as the `parentDims` field. -/

inductive NodeType where
  | frame
  | component
  | instanceNode
  | group
  | text
  | rectangle
  | vector
  | ellipse
  | line
  | star
  | polygon
  | booleanOperation
  | other
deriving DecidableEq, Repr

inductive PaintType where
  | solid
  | gradientLinear
  | gradientRadial
  | image
  | otherPaint
deriving DecidableEq, Repr

/-- A gradient stop: color channels with possibly-absent alpha, and a 0..1
position. -/
structure GStop where
  r : Q
  g : Q
  b : Q
  a : Option Q := none
  position : Q
deriving DecidableEq, Repr

structure Paint where
  ptype : PaintType
  visible : Option Bool := none
  r : Q := 0
  g : Q := 0
  b : Q := 0
  opacity : Option Q := none
  gradientStops : Option (List GStop) := none
  gradientHandlePositions : Option (List (Q × Q)) := none
  gradientTransform : List (List Q) := []
  scaleMode : Option String := none
deriving DecidableEq, Repr

/-- JS `paint.visible !== false`. -/
def Paint.visibleNotFalse (p : Paint) : Bool := p.visible ≠ some false

structure EffectColor where
  r : Q
  g : Q
  b : Q
  a : Option Q := none
deriving DecidableEq, Repr

structure Effect where
  etype : String
  visible : Option Bool := none
  offset : Option (Q × Q) := none
  radius : Option Q := none
  spread : Option Q := none
  color : Option EffectColor := none
deriving DecidableEq, Repr

def Effect.visibleNotFalse (e : Effect) : Bool := e.visible ≠ some false

structure FontName where
  family : String
  style : String
deriving DecidableEq, Repr

/-- A `{ value, unit }` object (line height, letter spacing). -/
structure ValueUnit where
  value : Q
  unit : String := ""
deriving DecidableEq, Repr

inductive CornerRadiusVal where
  | absent
  | mixed (tl tr br bl : Option Q)
  | uniform (r : Q)
deriving DecidableEq, Repr

structure Transition where
  duration : Option Q := none
  easingType : Option String := none
deriving DecidableEq, Repr

structure Reaction where
  transition : Option Transition := none
deriving DecidableEq, Repr

structure NodeData where
  ntype : NodeType
  name : String := ""
  visible : Bool := true
  x : Q := 0
  y : Q := 0
  width : Q := 0
  height : Q := 0
  fills : Option (List Paint) := none
  strokes : Option (List Paint) := none
  effects : Option (List Effect) := none
  cornerRadius : CornerRadiusVal := .absent
  layoutMode : Option String := none
  itemSpacing : Option Q := none
  paddingTop : Option Q := none
  paddingRight : Option Q := none
  paddingBottom : Option Q := none
  paddingLeft : Option Q := none
  layoutWrap : Option String := none
  counterAxisSpacing : Option Q := none
  gridColumnCount : Option Q := none
  gridRowCount : Option Q := none
  primaryAxisAlignItems : Option String := none
  counterAxisAlignItems : Option String := none
  clipsContent : Bool := false
  layoutSizingHorizontal : Option String := none
  layoutSizingVertical : Option String := none
  layoutGrow : Option Q := none
  layoutAlign : Option String := none
  minWidth : Option Q := none
  maxWidth : Option Q := none
  minHeight : Option Q := none
  maxHeight : Option Q := none
  strokeWeight : Option Q := none
  strokeTopWeight : Option Q := none
  strokeRightWeight : Option Q := none
  strokeBottomWeight : Option Q := none
  strokeLeftWeight : Option Q := none
  dashPattern : Option (List Q) := none
  opacity : Option Q := none
  rotation : Option Q := none
  blendMode : Option String := none
  reactions : Option (List Reaction) := none
  parentDims : Option (Q × Q) := none
  characters : String := ""
  fontSize : Option Q := none
  rangeFontSize : Option Q := none
  fontName : Option FontName := none
  rangeFontName : Option FontName := none
  lineHeight : Option ValueUnit := none
  rangeLineHeight : Option ValueUnit := none
  letterSpacing : Option ValueUnit := none
  rangeLetterSpacing : Option ValueUnit := none
  textDecoration : Option String := none
  rangeTextDecoration : Option String := none
  textCase : Option String := none
  rangeTextCase : Option String := none
  textAlignHorizontal : String := ""
deriving Repr

/-- A design node: its own data plus (when the node kind has the capability)
its ordered children. -/
inductive Node where
  | mk (data : NodeData) (children : Option (List Node)) : Node

def Node.data : Node → NodeData
  | .mk d _ => d

def Node.children : Node → Option (List Node)
  | .mk _ c => c

def Node.ntype (n : Node) : NodeType := n.data.ntype

def Node.name (n : Node) : String := n.data.name

def Node.visibleB (n : Node) : Bool := n.data.visible

def Node.x (n : Node) : Q := n.data.x

def Node.y (n : Node) : Q := n.data.y

def Node.width (n : Node) : Q := n.data.width

def Node.height (n : Node) : Q := n.data.height

/-- `frame.children` on nodes the source treats as always having children. -/
def Node.childrenD (n : Node) : List Node := n.children.getD []

/-- JS truthy test on our number model. -/
def jsTruthy (q : Q) : Bool := q ≠ (0 : Q)

/-- `frame.layoutMode && frame.layoutMode !== 'NONE'`. -/
def layoutModeActive (n : Node) : Bool :=
  match n.data.layoutMode with
  | some s => s ≠ "" && s ≠ "NONE"
  | none => false

/-! ## `inferLayoutFromChildren` (source lines 2373-2399) and claim C6 -/

/-- The open-interval axis-aligned bounding-box overlap test of the source's
inner loop. -/
def nodesOverlap (a b : Node) : Bool :=
  decide (a.x < b.x + b.width) && decide (b.x < a.x + a.width) &&
    decide (a.y < b.y + b.height) && decide (b.y < a.y + a.height)

/-- The source's nested `i < j` loops counting overlapping pairs. -/
def countOverlapPairs : List Node → ℕ
  | [] => 0
  | a :: rest => (rest.filter (fun b => nodesOverlap a b)).length + countOverlapPairs rest

/-- `Math.max(...)` over a non-empty list (the empty case never arises). -/
def listMax : List Q → Q
  | [] => 0
  | h :: t => t.foldl Q.max h

/-- `Math.min(...)` over a non-empty list. -/
def listMin : List Q → Q
  | [] => 0
  | h :: t => t.foldl Q.min h

instance : NatCast Q := ⟨fun n => ⟨(n : ℤ), 1⟩⟩

/-- `inferLayoutFromChildren(frame)` from the source. -/
def inferLayoutFromChildren (frame : Node) : String :=
  let children := frame.childrenD.filter (fun c => c.visibleB)
  if children.length ≤ 1 then "col"
  else
    let overlapCount := countOverlapPairs children
    if (children.length : Q) * ((3 : Q) / 10) < (overlapCount : Q) then "overlap"
    else
      let yPositions := children.map (fun c => c.y)
      let yRange := listMax yPositions - listMin yPositions
      let avgHeight :=
        (children.foldl (fun s c => s + c.height) 0) / (children.length : Q)
      if yRange < avgHeight * ((1 : Q) / 2) then "row" else "col"

/-- Specification-side overlap-pair count: the number of two-element
sublists (index pairs i < j) whose bounding boxes overlap openly. -/
def specOverlapPairs (l : List Node) : ℕ :=
  (l.sublistsLen 2).countP
    (fun p => match p with | [a, b] => nodesOverlap a b | _ => false)

theorem countOverlapPairs_eq_spec (l : List Node) :
    countOverlapPairs l = specOverlapPairs l := by
  induction l with
  | nil => rfl
  | cons a rest ih =>
    unfold countOverlapPairs specOverlapPairs
    rw [List.sublistsLen_succ_cons, List.countP_append, List.countP_map,
      List.sublistsLen_one, List.countP_map]
    have hcomp :
        (((fun p => match p with | [a', b] => nodesOverlap a' b | _ => false) ∘
          (List.cons a)) ∘ (fun b => [b])) = fun b => nodesOverlap a b := rfl
    rw [hcomp]
    rw [show (1 + 1 : ℕ) = 2 from rfl]
    have hrev : rest.reverse.countP (fun b => nodesOverlap a b)
        = rest.countP (fun b => nodesOverlap a b) := by
      rw [List.countP_eq_length_filter, List.countP_eq_length_filter,
        List.filter_reverse, List.length_reverse]
    rw [hrev, ← List.countP_eq_length_filter]
    rw [specOverlapPairs] at ih
    omega

/-- C6: `inferLayoutFromChildren` returns column for at most one visible
child for any geometry; with two or more visible children it returns
overlapping when the open-interval overlap-pair count exceeds 30% of the
child count, row when the y range is under half the average child height, and
column otherwise. -/
theorem inferLayoutFromChildren_spec (frame : Node) :
    ((frame.childrenD.filter (fun c => c.visibleB)).length ≤ 1 →
      inferLayoutFromChildren frame = "col") ∧
    (2 ≤ (frame.childrenD.filter (fun c => c.visibleB)).length →
      inferLayoutFromChildren frame =
        (if ((frame.childrenD.filter (fun c => c.visibleB)).length : Q) *
            ((3 : Q) / 10) <
            (specOverlapPairs (frame.childrenD.filter (fun c => c.visibleB)) : Q)
          then "overlap"
          else if listMax ((frame.childrenD.filter (fun c => c.visibleB)).map
                (fun c => c.y)) -
              listMin ((frame.childrenD.filter (fun c => c.visibleB)).map
                (fun c => c.y)) <
              (((frame.childrenD.filter (fun c => c.visibleB)).foldl
                  (fun s c => s + c.height) 0) /
                ((frame.childrenD.filter (fun c => c.visibleB)).length : Q)) *
                ((1 : Q) / 2)
            then "row"
          else "col")) := by
  constructor
  · intro h
    unfold inferLayoutFromChildren
    simp only [if_pos h]
  · intro h
    unfold inferLayoutFromChildren
    rw [if_neg (by omega), countOverlapPairs_eq_spec]

/-- A concrete two-child frame for the C6 witness: children side by side. -/
def rowFrame : Node :=
  Node.mk { ntype := NodeType.frame, width := 40, height := 10 }
    (some [Node.mk { ntype := NodeType.rectangle, x := 0, y := 0, width := 10,
                     height := 10 } none,
           Node.mk { ntype := NodeType.rectangle, x := 20, y := 0, width := 10,
                     height := 10 } none])

/-- Witness for C6: the two-or-more-children case evaluated at `rowFrame`. -/
theorem inferLayoutFromChildren_spec_witness :
    inferLayoutFromChildren rowFrame = "row" := by
  have h := (inferLayoutFromChildren_spec rowFrame).2 (by decide)
  rw [h]
  decide

/-! ## Composite-image detection (source lines 2983-3042) and claim C7 -/

/-- `isVectorLike` from the source. -/
def isVectorLike (n : Node) : Bool :=
  n.ntype = NodeType.vector || n.ntype = NodeType.ellipse ||
    n.ntype = NodeType.line || n.ntype = NodeType.star ||
    n.ntype = NodeType.polygon || n.ntype = NodeType.booleanOperation

/-- Word characters for the regex `\b` boundary. -/
def isWordChar (c : Char) : Bool :=
  ('a' ≤ c && c ≤ 'z') || ('A' ≤ c && c ≤ 'Z') || ('0' ≤ c && c ≤ '9') || c = '_'

/-- One-position test for `\bword\b`: boundary before (tracked previous
character), the word itself, boundary after. -/
def wordBoundedAt (w : List Char) (prev : Option Char) (l : List Char) : Bool :=
  (match prev with
   | none => true
   | some p => !isWordChar p) &&
    startsWithChars w l &&
    (match l.drop w.length with
     | [] => true
     | c :: _ => !isWordChar c)

def wordMatchAux (w : List Char) (prev : Option Char) : List Char → Bool
  | [] => wordBoundedAt w prev []
  | c :: cs => wordBoundedAt w prev (c :: cs) || wordMatchAux w (some c) cs

/-- Search for `\bword\b` anywhere in the string. -/
def wordBoundaryMatch (w : List Char) (l : List Char) : Bool :=
  wordMatchAux w none l

/-- `COMPOSITE_NAME_RE = /\b(logo|icon|symbol|glyph|emblem|crest|insignia|mark)\b/i`
tested on a node name (case-insensitively via lowering both sides). -/
def compositeNameMatch (name : String) : Bool :=
  let l := jsToLower name
  wordBoundaryMatch "logo".data l || wordBoundaryMatch "icon".data l ||
    wordBoundaryMatch "symbol".data l || wordBoundaryMatch "glyph".data l ||
    wordBoundaryMatch "emblem".data l || wordBoundaryMatch "crest".data l ||
    wordBoundaryMatch "insignia".data l || wordBoundaryMatch "mark".data l

/-- `isVectorContainer` from the source. -/
def isVectorContainer (n : Node) : Bool :=
  match n.children with
  | none => false
  | some children =>
    if children.length = 0 then false
    else
      let vis := children.filter (fun c => c.visibleB)
      decide (0 < vis.length) && vis.all isVectorLike

/-- The `isLargeContainer` guard: width > 100 and more than 2 visible
children. -/
def isLargeContainerOf (n : Node) (visCount : ℕ) : Bool :=
  decide ((100 : Q) < n.width) && decide (2 < visCount)

/-- The `isLayoutContainer` guard: frame-like node with an active
auto-layout mode. -/
def isLayoutContainerOf (n : Node) : Bool :=
  (n.ntype = NodeType.frame || n.ntype = NodeType.component ||
    n.ntype = NodeType.instanceNode) && layoutModeActive n

/-- `shouldExportAsCompositeImage` from the source. -/
def shouldExportAsCompositeImage (node : Node) : Bool :=
  match node.children with
  | none => false
  | some children =>
    if children.length = 0 then false
    else
      let visibleChildren := children.filter (fun c => c.visibleB)
      if visibleChildren.length = 0 then false
      else
        let isLargeContainer := isLargeContainerOf node visibleChildren.length
        let isLayoutContainer := isLayoutContainerOf node
        if isLargeContainer && isLayoutContainer then false
        else
          let nameMatch := compositeNameMatch node.name
          let allVector := visibleChildren.all isVectorLike
          if allVector then
            if isLargeContainer then false else true
          else if nameMatch &&
              visibleChildren.all (fun c => isVectorLike c || isVectorContainer c) then
            true
          else if node.ntype = NodeType.group then
            if isLargeContainer then false
            else
              let allVectorOrContainers :=
                visibleChildren.all (fun c => isVectorLike c || isVectorContainer c)
              if allVectorOrContainers && !allVector then true else false
          else false

/-- A large all-vector GROUP that is not an auto-layout container: three
visible vector children, width 200. -/
def largeVectorGroup : Node :=
  Node.mk { ntype := NodeType.group, name := "decoration", width := 200,
            height := 200 }
    (some [Node.mk { ntype := NodeType.vector, width := 10, height := 10 } none,
           Node.mk { ntype := NodeType.vector, x := 50, width := 10,
                     height := 10 } none,
           Node.mk { ntype := NodeType.vector, x := 100, width := 10,
                     height := 10 } none])

/-- Counterexample to C7 as stated: `largeVectorGroup` has only vector-like
visible children and is not an auto-layout container, yet
`shouldExportAsCompositeImage` returns false (the source excludes every
large all-vector subtree, auto-layout or not). -/
theorem shouldExport_allVector_counterexample :
    (largeVectorGroup.childrenD.filter (fun c => c.visibleB)).all isVectorLike
        = true ∧
      (largeVectorGroup.childrenD.filter (fun c => c.visibleB)).length = 3 ∧
      isLayoutContainerOf largeVectorGroup = false ∧
      shouldExportAsCompositeImage largeVectorGroup = false := by decide

/-- C7 amended: for every node whose visible children are non-empty and all
vector-like, `shouldExportAsCompositeImage` returns true exactly when the
subtree is not large (width > 100 with more than 2 visible children) — the
large-subtree exclusion applies regardless of whether the node is an
auto-layout container, and the node's name is never consulted. -/
theorem shouldExport_allVector_iff (node : Node) (cs : List Node)
    (hc : node.children = some cs)
    (hne : (cs.filter (fun c => c.visibleB)).length ≠ 0)
    (hav : (cs.filter (fun c => c.visibleB)).all isVectorLike = true) :
    shouldExportAsCompositeImage node =
      !(isLargeContainerOf node (cs.filter (fun c => c.visibleB)).length) := by
  unfold shouldExportAsCompositeImage
  rw [hc]
  dsimp only
  have hcs : ¬ cs.length = 0 := by
    intro h0
    rw [List.eq_nil_of_length_eq_zero h0] at hne
    exact hne rfl
  rw [if_neg hcs, if_neg hne]
  rw [hav]
  by_cases hlarge :
      isLargeContainerOf node (cs.filter (fun c => c.visibleB)).length = true
  · rw [hlarge]
    by_cases hlay : isLayoutContainerOf node = true
    · rw [hlay]; rfl
    · simp only [Bool.not_eq_true] at hlay
      rw [hlay]
      rfl
  · simp only [Bool.not_eq_true] at hlarge
    rw [hlarge]
    rfl

/-- Witness for the amended C7 at a small all-vector group (returns true). -/
def smallVectorGroup : Node :=
  Node.mk { ntype := NodeType.group, name := "misc", width := 24, height := 24 }
    (some [Node.mk { ntype := NodeType.vector, width := 10, height := 10 } none,
           Node.mk { ntype := NodeType.ellipse, x := 12, width := 10,
                     height := 10 } none])

theorem shouldExport_allVector_iff_witness :
    shouldExportAsCompositeImage smallVectorGroup = true := by
  have h := shouldExport_allVector_iff smallVectorGroup
    (smallVectorGroup.childrenD) rfl (by decide) (by decide)
  rw [h]
  decide

/-! ## Layer-to-Tailwind helpers (source lines 1385-1441, 1711-1814) -/

/-- `TW_SPACING_MAP` (px → class value), in the source's ascending key
order (which is also JS `Object.entries` order for integer keys). -/
def TW_SPACING_MAP : List (Q × String) :=
  [(0, "0"), (1, "px"), (2, "0.5"), (4, "1"), (6, "1.5"), (8, "2"),
   (10, "2.5"), (12, "3"), (14, "3.5"), (16, "4"), (20, "5"), (24, "6"),
   (28, "7"), (32, "8"), (36, "9"), (40, "10"), (44, "11"), (48, "12"),
   (56, "14"), (64, "16"), (80, "20"), (96, "24"), (112, "28"), (128, "32"),
   (144, "36"), (160, "40"), (176, "44"), (192, "48"), (208, "52"),
   (224, "56"), (240, "60"), (256, "64"), (288, "72"), (320, "80"),
   (384, "96")]

/-- The close-match loop of `pxToTailwindSpacing`: first key within 1px. -/
def spacingClose (px : Q) : List (Q × String) → Option String
  | [] => none
  | (k, v) :: rest => if Q.abs (k - px) ≤ 1 then some v else spacingClose px rest

/-- `pxToTailwindSpacing(px)` from the source. -/
def pxToTailwindSpacing (px : Q) : String :=
  if px = 0 then "0"
  else
    match alGet TW_SPACING_MAP px with
    | some v => v
    | none =>
      match spacingClose px TW_SPACING_MAP with
      | some v => v
      | none => "[" ++ numToString px ++ "px]"

/-- `fontStyleToWeight(style)` from the source: lowercase, strip whitespace,
keyword includes-checks in order. -/
def fontStyleToWeight (style : String) : ℕ :=
  let s := (jsToLower style).filter (fun c => !isWsChar c)
  if containsSub "thin".data s || containsSub "hairline".data s then 100
  else if containsSub "extralight".data s || containsSub "ultralight".data s then 200
  else if containsSub "light".data s then 300
  else if containsSub "medium".data s then 500
  else if containsSub "semibold".data s || containsSub "demibold".data s then 600
  else if containsSub "extrabold".data s || containsSub "ultrabold".data s then 800
  else if containsSub "black".data s || containsSub "heavy".data s then 900
  else if containsSub "bold".data s then 700
  else 400

/-- The host's transcendental math, abstracted: any fixed interpretation of
`Math.atan2`, `Math.sqrt` and the constant `Math.PI`.  The claims proved
about the markup generator hold for every interpretation. -/
structure JsMath where
  atan2 : Q → Q → Q
  sqrt : Q → Q
  pi : Q

/-- A trivial interpretation used to evaluate witnesses on concrete inputs. -/
def zeroJsMath : JsMath := { atan2 := fun _ _ => 0, sqrt := fun _ => 0, pi := 3 }

/-- Jagged matrix element access; missing entries (which JS would read as
`undefined`, poisoning the angle with NaN) are modelled as 0 and are guarded
by the same length checks the source performs. -/
def mEntry (m : List (List Q)) (i j : ℕ) : Q := ((m.getD i []).getD j 0)

/-- `getGradientAngle(transform)` from the source. -/
def getGradientAngle (jsm : JsMath) (transform : List (List Q)) : Q :=
  if transform.length < 2 then 180
  else
    let angle := jsm.atan2 (mEntry transform 1 0) (mEntry transform 0 0) *
      (Q.ofInt 180 / jsm.pi)
    Q.ofInt (jsRound (jsMod (angle + 90 + 360) 360))

/-- The single-quote character, written via its code point. -/
def apos : String := String.mk [Char.ofNat 39]

/-- `formatNumberForCss(value)` from the source. -/
def formatNumberForCss (value : Q) : String :=
  let rounded := Q.ofInt (jsRound (value * 100)) / 100
  if Q.ofInt (jsRound rounded) = rounded then numToString rounded
  else
    let fixedStr := jsToFixedString rounded 2
    let stripped0 := String.mk (fixedStr.data.reverse.dropWhile (fun c => c = '0')).reverse
    match stripped0.data.getLast? with
    | some '.' => String.mk (stripped0.data.dropLast)
    | _ => stripped0

/-- `gradientStopHex(stop)` from the source: rgba() for transparent stops,
hex otherwise. -/
def gradientStopHex (stop : GStop) : String :=
  let a := stop.a.getD 1
  if a < 1 then
    "rgba(" ++ toString (jsRound (stop.r * 255)) ++ ", " ++
      toString (jsRound (stop.g * 255)) ++ ", " ++
      toString (jsRound (stop.b * 255)) ++ ", " ++ jsToFixedString a 2 ++ ")"
  else rgbaToHex stop.r stop.g stop.b 1

/-- `gradientStopsToCss(stops)` from the source. -/
def gradientStopsToCss (stops : List GStop) : String :=
  String.intercalate ", "
    (stops.map (fun s => gradientStopHex s ++ " " ++
      formatNumberForCss (s.position * 100) ++ "%"))

/-- `linearGradientCssFromPaint(grad)` from the source. -/
def linearGradientCssFromPaint (jsm : JsMath) (grad : Paint) : String :=
  let stopsStr := gradientStopsToCss (grad.gradientStops.getD [])
  let cssAngle0 := getGradientAngle jsm grad.gradientTransform
  let cssAngle :=
    match grad.gradientHandlePositions with
    | some handles =>
      if 2 ≤ handles.length then
        let start := handles.getD 0 (0, 0)
        let stop := handles.getD 1 (0, 0)
        let dx := stop.1 - start.1
        let dy := stop.2 - start.2
        let angle0 := jsm.atan2 dy dx * (Q.ofInt 180 / jsm.pi)
        let angle := jsMod (angle0 + 360) 360
        jsMod (angle + 90) 360
      else cssAngle0
    | none => cssAngle0
  "linear-gradient(" ++ formatNumberForCss cssAngle ++ "deg, " ++ stopsStr ++ ")"

/-- `radialGradientCssFromPaint(grad)` from the source. -/
def radialGradientCssFromPaint (jsm : JsMath) (grad : Paint) : String :=
  let stopsStr := gradientStopsToCss (grad.gradientStops.getD [])
  match grad.gradientHandlePositions with
  | some handles =>
    if 3 ≤ handles.length then
      let center := handles.getD 0 (0, 0)
      let h1 := handles.getD 1 (0, 0)
      let h2 := handles.getD 2 (0, 0)
      let cx := center.1 * 100
      let cy := center.2 * 100
      let rx := jsm.sqrt ((h1.1 - center.1) * (h1.1 - center.1) +
        (h1.2 - center.2) * (h1.2 - center.2)) * 100
      let ry := jsm.sqrt ((h2.1 - center.1) * (h2.1 - center.1) +
        (h2.2 - center.2) * (h2.2 - center.2)) * 100
      "radial-gradient(ellipse " ++ formatNumberForCss rx ++ "% " ++
        formatNumberForCss ry ++ "% at " ++ formatNumberForCss cx ++ "% " ++
        formatNumberForCss cy ++ "%, " ++ stopsStr ++ ")"
    else "radial-gradient(circle, " ++ stopsStr ++ ")"
  | none => "radial-gradient(circle, " ++ stopsStr ++ ")"

/-- Replace every whitespace run by the given replacement
(JS `replace(/\s+/g, r)`). -/
def replaceWsRunsAux (r : List Char) : List Char → Bool → List Char
  | [], _ => []
  | c :: cs, inRun =>
    if isWsChar c then (if inRun then [] else r) ++ replaceWsRunsAux r cs true
    else c :: replaceWsRunsAux r cs false

def replaceWsRuns (s : String) (r : String) : String :=
  String.mk (replaceWsRunsAux r.data s.data false)

/-- `gradientPaintToTailwindBgClass(grad)` from the source. -/
def gradientPaintToTailwindBgClass (jsm : JsMath) (grad : Paint) : String :=
  let css :=
    if grad.ptype = PaintType.gradientLinear then linearGradientCssFromPaint jsm grad
    else if grad.ptype = PaintType.gradientRadial then radialGradientCssFromPaint jsm grad
    else linearGradientCssFromPaint jsm grad
  "bg-[" ++ replaceWsRuns css "_" ++ "]"

/-- `BLEND_MODE_MAP` as a lookup. -/
def BLEND_MODE_MAP (mode : String) : Option String :=
  alGet
    [("MULTIPLY", "mix-blend-multiply"), ("SCREEN", "mix-blend-screen"),
     ("OVERLAY", "mix-blend-overlay"), ("DARKEN", "mix-blend-darken"),
     ("LIGHTEN", "mix-blend-lighten"), ("COLOR_DODGE", "mix-blend-color-dodge"),
     ("COLOR_BURN", "mix-blend-color-burn"), ("HARD_LIGHT", "mix-blend-hard-light"),
     ("SOFT_LIGHT", "mix-blend-soft-light"), ("DIFFERENCE", "mix-blend-difference"),
     ("EXCLUSION", "mix-blend-exclusion"), ("HUE", "mix-blend-hue"),
     ("SATURATION", "mix-blend-saturation"), ("COLOR", "mix-blend-color"),
     ("LUMINOSITY", "mix-blend-luminosity")] mode

/-! ## Semantic element detection (source lines 2856-2979) -/

structure SemanticResult where
  tag : String
  extraClasses : List String
  selfClosing : Bool
  attrs : String
  wrapChildren : Option String
deriving DecidableEq, Repr

/-- Match any of the `\b`-bounded alternatives against the (lowercased)
name. -/
def wordAlt (ws : List String) (l : List Char) : Bool :=
  ws.any (fun w => wordBoundaryMatch w.data l)

/-- The `/^main\b/i` rule: anchored at the start. -/
def mainAnchored (l : List Char) : Bool :=
  wordBoundedAt "main".data none l

/-- `detectSemanticElement(node, isTopLevel)` from the source: text size
thresholds, then the ordered name rules, then the structural button / list /
separator heuristics, then the generic fallback. -/
def detectSemanticElement (node : Node) (isTopLevel : Bool) : SemanticResult :=
  let name := jsToLower node.name
  if node.ntype = NodeType.text then
    let fontSize := node.data.fontSize.getD 16
    let tag :=
      if (32 : Q) ≤ fontSize then "h1"
      else if (24 : Q) ≤ fontSize then "h2"
      else if (20 : Q) ≤ fontSize then "h3"
      else if (18 : Q) ≤ fontSize then "h4"
      else "p"
    ⟨tag, [], false, "", none⟩
  else if wordAlt ["button", "btn", "cta"] name then
    ⟨"button", ["cursor-pointer"], false, "", none⟩
  else if wordAlt ["link", "anchor"] name then
    ⟨"a", [], false, "href=\"#\"", none⟩
  else if wordAlt ["nav", "navbar", "navigation", "menu"] name then
    ⟨"nav", [], false, "", none⟩
  else if wordAlt ["header", "topbar", "app-bar"] name then
    ⟨"header", [], false, "", none⟩
  else if wordAlt ["footer", "bottom-bar"] name then
    ⟨"footer", [], false, "", none⟩
  else if mainAnchored name then
    ⟨"main", [], false, "", none⟩
  else if wordAlt ["sidebar", "aside", "drawer"] name then
    ⟨"aside", [], false, "", none⟩
  else if wordAlt ["input", "text-field", "textfield", "search-bar"] name then
    ⟨"input", ["outline-none"], true, "", none⟩
  else if wordAlt ["label"] name then
    ⟨"label", [], false, "", none⟩
  else if wordAlt ["divider", "separator"] name then
    ⟨"hr", [], true, "", none⟩
  else if wordAlt ["badge", "tag", "chip"] name then
    ⟨"span", [], false, "", none⟩
  else if wordAlt ["radio"] name then
    ⟨"input", [], true, "type=\"radio\"", none⟩
  else if wordAlt ["checkbox", "check"] name then
    ⟨"input", [], true, "type=\"checkbox\"", none⟩
  else
    let isFrame := node.ntype = NodeType.frame || node.ntype = NodeType.component ||
      node.ntype = NodeType.instanceNode
    let structural : Option SemanticResult :=
      if isFrame then
        let children := node.childrenD.filter (fun c => c.visibleB)
        let buttonLike :=
          children.length ≤ 2 && decide (1 ≤ children.length) &&
            decide (node.width < 300) && decide (node.height ≤ 60) &&
            children.any (fun c => c.ntype = NodeType.text) &&
            (match node.data.fills with
             | some fills => fills.any (fun p =>
                p.ptype = PaintType.solid && p.visibleNotFalse)
             | none => false) &&
            !(children.any (fun c =>
              c.ntype ≠ NodeType.text && c.ntype ≠ NodeType.vector &&
                c.ntype ≠ NodeType.ellipse))
        if buttonLike then some ⟨"button", ["cursor-pointer"], false, "", none⟩
        else if layoutModeActive node && decide (3 ≤ children.length) then
          let types := children.map (fun c => c.ntype)
          let allSameType := types.all (fun t => t = types.headD NodeType.other)
          if allSameType then
            let heights := children.map (fun c => Q.ofInt (jsRound c.height))
            let avgH := (heights.foldl (fun s h => s + h) 0) / (heights.length : Q)
            let similar := heights.all (fun h => Q.abs (h - avgH) < avgH * ((3 : Q) / 10))
            if similar then some ⟨"ul", ["list-none"], false, "", some "li"⟩
            else none
          else none
        else none
      else none
    match structural with
    | some r => r
    | none =>
      if node.ntype = NodeType.rectangle &&
          ((decide (node.height < 3) && decide ((30 : Q) < node.width)) ||
            (decide (node.width < 3) && decide ((30 : Q) < node.height))) then
        ⟨"hr", [], true, "", none⟩
      else if isTopLevel then ⟨"section", [], false, "", none⟩
      else ⟨"div", [], false, "", none⟩

/-- `getTextContent`'s HTML entity escaping of `&`, `<`, `>`. -/
def escapeHTML (s : String) : String :=
  String.mk (s.data.foldr (fun c acc =>
    (match c with
     | '&' => "&amp;".data
     | '<' => "&lt;".data
     | '>' => "&gt;".data
     | c => [c]) ++ acc) [])

def getTextContent (node : Node) : String := escapeHTML node.data.characters

/-- `name.replace(/"/g, '&quot;')`. -/
def escapeQuot (s : String) : String :=
  String.mk (s.data.foldr (fun c acc =>
    (if c = '"' then "&quot;".data else [c]) ++ acc) [])

/-! ## Asset plumbing (source lines 91-134, 3156-3170) -/

structure AssetEntry where
  base64 : String
  mimeType : String
  fileName : String
deriving DecidableEq, Repr

def base64Chars : List Char :=
  "ABCDEFGHIJKLMNOPQRSTUVWXYZabcdefghijklmnopqrstuvwxyz0123456789+/".data

def b64At (i : ℕ) : Char := base64Chars.getD i 'A'

/-- `uint8ToBase64(bytes)` from the source, three input bytes at a time. -/
def uint8ToBase64 : List ℕ → String
  | [] => ""
  | [b0] =>
    String.mk [b64At (b0 / 4), b64At ((b0 % 4) * 16)] ++ "=="
  | [b0, b1] =>
    String.mk [b64At (b0 / 4), b64At ((b0 % 4) * 16 + b1 / 16),
      b64At ((b1 % 16) * 4)] ++ "="
  | b0 :: b1 :: b2 :: rest =>
    String.mk [b64At (b0 / 4), b64At ((b0 % 4) * 16 + b1 / 16),
      b64At ((b1 % 16) * 4 + b2 / 64), b64At (b2 % 64)] ++ uint8ToBase64 rest

def isLowerAlnum (c : Char) : Bool :=
  ('a' ≤ c && c ≤ 'z') || ('0' ≤ c && c ≤ '9')

/-- Collapse runs of non-[a-z0-9] characters to a single dash
(JS `replace(/[^a-z0-9]+/g, '-')`). -/
def collapseNonAlnumAux : List Char → Bool → List Char
  | [], _ => []
  | c :: cs, inRun =>
    if isLowerAlnum c then c :: collapseNonAlnumAux cs false
    else (if inRun then [] else ['-']) ++ collapseNonAlnumAux cs true

/-- `replace(/^-|-$/g, '')`: strip one leading and one trailing dash. -/
def stripEdgeDash (l : List Char) : List Char :=
  let l1 := match l with
    | '-' :: rest => rest
    | other => other
  match l1.getLast? with
  | some '-' => l1.dropLast
  | _ => l1

/-- The `while` of `toAssetFileName`, with fuel bounding the finite used-name
set (the JS loop terminates for the same reason). -/
def assetNameLoop (base ext : String) (used : List String) : ℕ → ℕ → String
  | counter, 0 => base ++ "-" ++ toString counter ++ "." ++ ext
  | counter, fuel + 1 =>
    if used.contains (base ++ "-" ++ toString counter ++ "." ++ ext) then
      assetNameLoop base ext used (counter + 1) fuel
    else base ++ "-" ++ toString counter ++ "." ++ ext

/-- `toAssetFileName(name, ext, usedNames)`: slugify, uniquify against and
record into the used-name set. -/
def toAssetFileName (name ext : String) (usedNames : List String) :
    String × List String :=
  let base0 := (stripEdgeDash (collapseNonAlnumAux (jsToLower name) false)).take 60
  let base := if base0.isEmpty then "asset" else String.mk base0
  let fileName := base ++ "." ++ ext
  let final :=
    if usedNames.contains fileName then
      assetNameLoop base ext usedNames 2 (usedNames.length + 1)
    else fileName
  (final, setAdd usedNames final)

/-! ## Image-fill helpers (source lines 3089-3199) -/

/-- `hasImageFill(node)`. -/
def hasImageFill (node : Node) : Bool :=
  match node.data.fills with
  | some fills => fills.any (fun p => p.ptype = PaintType.image && p.visibleNotFalse)
  | none => false

/-- `getImageFillScaleMode(node)`: the first visible image paint's scale
mode (`|| null` maps the empty string to null). -/
def getImageFillScaleMode (node : Node) : Option String :=
  match node.data.fills with
  | some fills =>
    match fills.find? (fun p => p.ptype = PaintType.image && p.visibleNotFalse) with
    | some p =>
      match p.scaleMode with
      | some s => if s = "" then none else some s
      | none => none
    | none => none
  | none => none

/-- `hasVisibleChildren(node)`. -/
def hasVisibleChildren (node : Node) : Bool :=
  match node.children with
  | some children => children.any (fun c => c.visibleB)
  | none => false

/-- `classifyImageFillUsage(node, parentIsAutoLayout)` from the source. -/
def classifyImageFillUsage (node : Node) (parentIsAutoLayout : Bool) : String :=
  let hasChildren := hasVisibleChildren node
  let scaleMode := getImageFillScaleMode node
  let name := jsToLower node.name
  if hasChildren then "background"
  else
    let bgScore0 : ℕ := 0
    let imageScore0 : ℕ := 0
    let bgScore1 :=
      if wordAlt ["bg", "background", "hero", "cover", "banner", "backdrop"] name
      then bgScore0 + 2 else bgScore0
    let imageScore1 :=
      if wordAlt ["img", "image", "photo", "avatar", "logo", "icon", "thumb",
        "thumbnail"] name then imageScore0 + 2 else imageScore0
    let bgScore2 :=
      if scaleMode = some "FILL" || scaleMode = some "CROP" then bgScore1 + 1
      else bgScore1
    let imageScore2 :=
      if scaleMode = some "FIT" || scaleMode = some "TILE" then imageScore1 + 1
      else imageScore1
    let scored :=
      match node.data.parentDims with
      | some (pw, ph) =>
        if decide (0 < pw) && decide (0 < ph) then
          let parentArea := pw * ph
          let nodeArea := node.width * node.height
          let coverage := if 0 < parentArea then nodeArea / parentArea else 0
          let b := if (7 : Q) / 10 ≤ coverage then bgScore2 + 1 else bgScore2
          let i := if coverage ≤ (2 : Q) / 10 then imageScore2 + 1 else imageScore2
          (b, i)
        else (bgScore2, imageScore2)
      | none => (bgScore2, imageScore2)
    let bgScore3 := scored.1
    let imageScore3 := scored.2
    let imageScore4 :=
      if decide (node.width ≤ 96) && decide (node.height ≤ 96) then imageScore3 + 1
      else imageScore3
    let imageScore5 :=
      if parentIsAutoLayout && !hasChildren then imageScore4 + 1 else imageScore4
    if hasChildren && decide (imageScore5 ≤ bgScore3) then "background"
    else if decide (imageScore5 < bgScore3) then "background"
    else "image"

/-- `getBackgroundImageClasses(node)`. -/
def getBackgroundImageClasses (node : Node) : List String :=
  let scaleMode := getImageFillScaleMode node
  if scaleMode = some "TILE" then ["bg-repeat"]
  else if scaleMode = some "FIT" then ["bg-contain", "bg-center", "bg-no-repeat"]
  else ["bg-cover", "bg-center", "bg-no-repeat"]

/-- `getImageClasses(node, parentIsAutoLayout)`. -/
def getImageClasses (node : Node) (parentIsAutoLayout : Bool) : List String :=
  let cls0 := ["max-w-full"]
  let scaleMode := getImageFillScaleMode node
  let cls1 :=
    if scaleMode = some "FILL" || scaleMode = some "CROP" then cls0 ++ ["object-cover"]
    else if scaleMode = some "FIT" then cls0 ++ ["object-contain"]
    else cls0
  let hasFixedHeight := !parentIsAutoLayout && decide (0 < node.height)
  let cls2 := if !hasFixedHeight then cls1 ++ ["h-auto"] else cls1
  if parentIsAutoLayout then
    match node.data.parentDims with
    | some (pw, _) =>
      if Q.abs (node.width - pw) < 2 then cls2 ++ ["w-full"]
      else cls2 ++ ["shrink-0", "w-[" ++ toString (jsRound node.width) ++ "px]"]
    | none => cls2 ++ ["shrink-0", "w-[" ++ toString (jsRound node.width) ++ "px]"]
  else cls2

def getVectorImgClasses : List String := ["shrink-0"]

/-! ## `nodeToClasses` (source lines 2401-2854) -/

/-- JS truthy test for an optional boolean argument. -/
def optTruthy (b : Option Bool) : Bool := b = some true

/-- The fills loop of `nodeToClasses`: first visible solid or gradient paint
produces a class, later paints are ignored. -/
def fillClassLoop (jsm : JsMath) (isText : Bool) : List Paint → Option String
  | [] => none
  | p :: rest =>
    if p.visible = some false then fillClassLoop jsm isText rest
    else if p.ptype = PaintType.solid then
      some ((if isText then "text-" else "bg-") ++
        hexToTailwindColor (rgbaToHex p.r p.g p.b (p.opacity.getD 1)))
    else if p.ptype = PaintType.gradientLinear && p.gradientStops.isSome then
      some (gradientPaintToTailwindBgClass jsm p)
    else if p.ptype = PaintType.gradientRadial && p.gradientStops.isSome then
      some (gradientPaintToTailwindBgClass jsm p)
    else fillClassLoop jsm isText rest

/-- The per-corner `radiusToClass` helper of the mixed-radius branch. -/
def radiusToClass (px : Q) : String :=
  if (500 : Q) ≤ px then "full"
  else
    let closest := jsReduceClosest px (TW_RADIUS_SCALE.filter (fun s => s.1 ≠ "full"))
    if Q.abs (closest.2 - px) ≤ 1 then closest.1 else "[" ++ numToString px ++ "px]"

/-- `family.replace(/'/g, "\\'")`. -/
def escapeApos (s : String) : String :=
  String.mk (s.data.foldr (fun c acc =>
    (if c = Char.ofNat 39 then ['\\', Char.ofNat 39] else [c]) ++ acc) [])

/-- The effects loop of `nodeToClasses` (drop shadow handled once, inner
shadows, blurs). -/
def effectsClassLoop : List Effect → Bool → List String
  | [], _ => []
  | e :: rest, handled =>
    if e.visible = some false then effectsClassLoop rest handled
    else
      let fromDrop :=
        if e.etype = "DROP_SHADOW" && !handled then
          let radius := e.radius.getD 0
          let sizeCls :=
            if radius ≤ 3 then "shadow-sm"
            else if radius ≤ 8 then "shadow"
            else if radius ≤ 16 then "shadow-md"
            else if radius ≤ 25 then "shadow-lg"
            else "shadow-xl"
          let colorCls :=
            match e.color with
            | some sc =>
              if decide ((5 : Q) / 100 < sc.r) || decide ((5 : Q) / 100 < sc.g) ||
                  decide ((5 : Q) / 100 < sc.b) then
                ["shadow-[" ++ rgbaToHex sc.r sc.g sc.b (sc.a.getD 1) ++ "]"]
              else []
            | none => []
          some (sizeCls :: colorCls)
        else none
      let handled' := handled || (e.etype = "DROP_SHADOW" && !handled)
      let inner :=
        if e.etype = "INNER_SHADOW" then
          let off := e.offset.getD (0, 0)
          let x := jsRound off.1
          let y := jsRound off.2
          let blur := jsRound (e.radius.getD 0)
          let col :=
            match e.color with
            | some c => rgbaToHex c.r c.g c.b (c.a.getD 1)
            | none => "#00000040"
          ["shadow-[inset_" ++ toString x ++ "px_" ++ toString y ++ "px_" ++
            toString blur ++ "px_" ++ col ++ "]"]
        else []
      let lblur :=
        if e.etype = "LAYER_BLUR" then
          let blur := jsRound (e.radius.getD 0)
          if 0 < blur then ["blur-[" ++ toString blur ++ "px]"] else []
        else []
      let bblur :=
        if e.etype = "BACKGROUND_BLUR" then
          let blur := jsRound (e.radius.getD 0)
          if 0 < blur then ["backdrop-blur-[" ++ toString blur ++ "px]"] else []
        else []
      (fromDrop.getD []) ++ inner ++ lblur ++ bblur ++ effectsClassLoop rest handled'

/-- The auto-layout / inferred-layout / padding / clip section of
`nodeToClasses` (frame-like nodes only). -/
def frameSectionClasses (node : Node) (isTopLevel : Option Bool) : List String :=
  let lm := node.data.layoutMode.getD ""
  let layoutCls :=
    if layoutModeActive node then
      let modeCls :=
        if lm = "GRID" then
          let colsCls :=
            match node.data.gridColumnCount with
            | some gc =>
              if 0 < gc then
                if gc ≤ 12 then ["grid-cols-" ++ numToString gc]
                else ["grid-cols-[repeat(" ++ numToString gc ++ ",minmax(0,1fr))]"]
              else []
            | none => []
          let rowsCls :=
            match node.data.gridRowCount with
            | some gr =>
              if 0 < gr then
                if gr ≤ 12 then ["grid-rows-" ++ numToString gr]
                else ["grid-rows-[repeat(" ++ numToString gr ++ ",minmax(0,1fr))]"]
              else []
            | none => []
          ["grid"] ++ colsCls ++ rowsCls
        else
          ["flex"] ++ (if lm = "VERTICAL" then ["flex-col"] else []) ++
            (match node.data.primaryAxisAlignItems with
             | some "CENTER" => ["justify-center"]
             | some "MAX" => ["justify-end"]
             | some "SPACE_BETWEEN" => ["justify-between"]
             | _ => []) ++
            (match node.data.counterAxisAlignItems with
             | some "CENTER" => ["items-center"]
             | some "MAX" => ["items-end"]
             | _ => []) ++
            (if node.data.layoutWrap = some "WRAP" then ["flex-wrap"] else [])
      let gapCls :=
        match node.data.itemSpacing with
        | some sp => if 0 < sp then ["gap-" ++ pxToTailwindSpacing sp] else []
        | none => []
      let gridGapY :=
        if lm = "GRID" then
          match node.data.counterAxisSpacing, node.data.itemSpacing with
          | some cs, some sp =>
            if decide (0 < cs) && decide (0 < sp) && decide (cs ≠ sp) then
              ["gap-y-" ++ pxToTailwindSpacing cs]
            else []
          | _, _ => []
        else []
      modeCls ++ gapCls ++ gridGapY
    else
      if node.childrenD.length ≠ 0 then
        let layout := inferLayoutFromChildren node
        if layout = "row" then ["flex"]
        else if layout = "col" then ["flex", "flex-col"]
        else ["relative"]
      else []
  let pt := node.data.paddingTop.getD 0
  let pr := node.data.paddingRight.getD 0
  let pb := node.data.paddingBottom.getD 0
  let pl := node.data.paddingLeft.getD 0
  let padCls :=
    if pt = pr && pr = pb && pb = pl && 0 < pt then
      ["p-" ++ pxToTailwindSpacing pt]
    else if pt = pb && 0 < pt && pl = pr && 0 < pl then
      ["px-" ++ pxToTailwindSpacing pl, "py-" ++ pxToTailwindSpacing pt]
    else
      (if 0 < pt then ["pt-" ++ pxToTailwindSpacing pt] else []) ++
        (if 0 < pr then ["pr-" ++ pxToTailwindSpacing pr] else []) ++
        (if 0 < pb then ["pb-" ++ pxToTailwindSpacing pb] else []) ++
        (if 0 < pl then ["pl-" ++ pxToTailwindSpacing pl] else [])
  let clipCls :=
    if node.data.clipsContent && !(optTruthy isTopLevel) then ["overflow-hidden"]
    else []
  layoutCls ++ padCls ++ clipCls

/-- The size section of `nodeToClasses`: top-level width, fixed dimensions
outside auto-layout, grow/stretch/fixed/fractional sizing inside. -/
def sizeSectionClasses (node : Node) (parentIsAutoLayout : Bool)
    (parentIsWrap : Option Bool) (parentWidth parentGap : Option Q)
    (isTopLevel : Option Bool) (isFrame : Bool) : List String :=
  if optTruthy isTopLevel then ["w-full"]
  else if !parentIsAutoLayout then
    (if 0 < node.width then
      ["w-" ++ pxToTailwindSpacing (Q.ofInt (jsRound node.width))] else []) ++
      (if 0 < node.height then
        ["h-" ++ pxToTailwindSpacing (Q.ofInt (jsRound node.height))] else [])
  else
    let sizingH := node.data.layoutSizingHorizontal
    let sizingV := node.data.layoutSizingVertical
    let growCls :=
      if isFrame then
        (if node.data.layoutGrow = some 1 then ["flex-1"] else []) ++
          (if node.data.layoutAlign = some "STRETCH" then ["self-stretch"] else [])
      else []
    let emitFixedW := sizingH = some "FIXED" ||
      (sizingH = none && node.ntype ≠ NodeType.text)
    let emitFixedH := sizingV = some "FIXED"
    let fixedW :=
      if emitFixedW && decide (0 < node.width) && !(optTruthy parentIsWrap) then
        ["w-[" ++ toString (jsRound node.width) ++ "px]"]
      else []
    let fixedH :=
      if emitFixedH && decide (0 < node.height) then
        ["h-[" ++ toString (jsRound node.height) ++ "px]"]
      else []
    let wrapCls :=
      if optTruthy parentIsWrap && decide (0 < node.width) then
        match parentWidth with
        | some pw =>
          if jsTruthy pw && decide (0 < pw) then
            let gap := parentGap.getD 0
            let childW := Q.ofInt (jsRound node.width)
            let cols0 : ℤ := jsRound ((pw + gap) / (childW + gap))
            let cols : ℤ := if cols0 ≤ 1 then 1 else cols0
            if 2 ≤ cols then
              if cols = 2 then
                ["w-[calc(50%-" ++ toString (jsRound (gap / 2)) ++ "px)]"]
              else if cols = 3 then
                ["w-[calc(33.333%-" ++ toString (jsRound (gap * 2 / 3)) ++ "px)]"]
              else if cols = 4 then
                ["w-[calc(25%-" ++ toString (jsRound (gap * 3 / 4)) ++ "px)]"]
              else
                ["w-[calc(" ++ jsToFixedString (Q.ofInt 100 / Q.ofInt cols) 3 ++
                  "%-" ++ toString (jsRound (gap * Q.ofInt (cols - 1) / Q.ofInt cols)) ++
                  "px)]"]
            else ["w-full"]
          else []
        | none => []
      else []
    growCls ++ fixedW ++ fixedH ++ wrapCls

/-- The border section of `nodeToClasses` (first stroke paint). -/
def strokeSectionClasses (node : Node) : List String :=
  match node.data.strokes with
  | some strokes =>
    if strokes.length ≠ 0 then
      match strokes.head? with
      | some stroke =>
        if stroke.ptype = PaintType.solid && stroke.visibleNotFalse then
          let top := node.data.strokeTopWeight
          let hasIndividual := top.isSome &&
            (top ≠ node.data.strokeBottomWeight ||
              top ≠ node.data.strokeLeftWeight ||
              top ≠ node.data.strokeRightWeight)
          let weightCls :=
            if hasIndividual then
              (match top with
               | some w => if 0 < w then
                   [if w = 1 then "border-t" else "border-t-" ++ numToString w]
                 else []
               | none => []) ++
                (match node.data.strokeRightWeight with
                 | some w => if 0 < w then
                     [if w = 1 then "border-r" else "border-r-" ++ numToString w]
                   else []
                 | none => []) ++
                (match node.data.strokeBottomWeight with
                 | some w => if 0 < w then
                     [if w = 1 then "border-b" else "border-b-" ++ numToString w]
                   else []
                 | none => []) ++
                (match node.data.strokeLeftWeight with
                 | some w => if 0 < w then
                     [if w = 1 then "border-l" else "border-l-" ++ numToString w]
                   else []
                 | none => [])
            else
              let sw := node.data.strokeWeight.getD 1
              if sw = 1 then ["border"] else ["border-" ++ numToString sw]
          weightCls ++
            ["border-" ++ hexToTailwindColor
              (rgbaToHex stroke.r stroke.g stroke.b (stroke.opacity.getD 1))]
        else []
      | none => []
    else []
  | none => []

/-- The corner-radius section of `nodeToClasses`. -/
def radiusSectionClasses (node : Node) : List String :=
  match node.data.cornerRadius with
  | CornerRadiusVal.absent => []
  | CornerRadiusVal.mixed tl tr br bl =>
    let tlv := tl.getD 0
    let trv := tr.getD 0
    let brv := br.getD 0
    let blv := bl.getD 0
    (if 0 < tlv then ["rounded-tl-" ++ radiusToClass tlv] else []) ++
      (if 0 < trv then ["rounded-tr-" ++ radiusToClass trv] else []) ++
      (if 0 < brv then ["rounded-br-" ++ radiusToClass brv] else []) ++
      (if 0 < blv then ["rounded-bl-" ++ radiusToClass blv] else [])
  | CornerRadiusVal.uniform r =>
    if 0 < r then
      if (500 : Q) ≤ r then ["rounded-full"]
      else
        let closest := jsReduceClosest r (TW_RADIUS_SCALE.filter (fun s => s.1 ≠ "full"))
        if Q.abs (closest.2 - r) ≤ 1 then ["rounded-" ++ closest.1]
        else ["rounded-[" ++ numToString r ++ "px]"]
    else []

/-- The typography section of `nodeToClasses` (text nodes only). -/
def typoSectionClasses (node : Node) : List String :=
  let chars := node.data.characters
  let resolvedFontSize :=
    match node.data.fontSize with
    | some v => some v
    | none => if chars.length ≠ 0 then node.data.rangeFontSize else none
  let fsCls :=
    match resolvedFontSize with
    | some v =>
      if jsTruthy v then
        let rem := v / 16
        let closest := jsReduceClosest rem TW_TEXT_SCALE
        if Q.abs (closest.2 - rem) < (5 : Q) / 100 then ["text-" ++ closest.1]
        else ["text-[" ++ numToString v ++ "px]"]
      else []
    | none => []
  let resolvedFontName :=
    match node.data.fontName with
    | some fn => some fn
    | none => if chars.length ≠ 0 then node.data.rangeFontName else none
  let famCls :=
    match resolvedFontName with
    | some fn =>
      ["font-[" ++ apos ++ replaceWsRuns (escapeApos fn.family) "_" ++ apos ++ "]"]
    | none => []
  let weightCls :=
    match resolvedFontName with
    | some fn =>
      let weight := fontStyleToWeight fn.style
      if weight ≠ 400 then
        ["font-" ++ ((TW_WEIGHT_MAP weight).getD ("[" ++ toString weight ++ "]"))]
      else []
    | none => []
  let resolvedLineHeight :=
    match node.data.lineHeight with
    | some lh => some lh
    | none => if chars.length ≠ 0 then node.data.rangeLineHeight else none
  let leadingCls :=
    match resolvedLineHeight, resolvedFontSize with
    | some lh, some fsv =>
      if lh.unit = "PIXELS" && jsTruthy fsv then
        let lineRat := lh.value / fsv
        let closest := jsReduceClosest lineRat TW_LEADING_SCALE
        if Q.abs (closest.2 - lineRat) < (1 : Q) / 10 then ["leading-" ++ closest.1]
        else []
      else []
    | _, _ => []
  let resolvedLetterSpacing :=
    match node.data.letterSpacing with
    | some ls => some ls
    | none => if chars.length ≠ 0 then node.data.rangeLetterSpacing else none
  let trackCls :=
    match resolvedLetterSpacing with
    | some ls =>
      if (1 : Q) / 10 < Q.abs ls.value then
        if ls.value < -((3 : Q) / 10) then ["tracking-tighter"]
        else if ls.value < 0 then ["tracking-tight"]
        else if (5 : Q) / 10 < ls.value then ["tracking-wider"]
        else if (2 : Q) / 10 < ls.value then ["tracking-wide"]
        else []
      else []
    | none => []
  let resolvedDecoration :=
    match node.data.textDecoration with
    | some d => some d
    | none => if chars.length ≠ 0 then node.data.rangeTextDecoration else none
  let decoCls :=
    if resolvedDecoration = some "UNDERLINE" then ["underline"]
    else if resolvedDecoration = some "STRIKETHROUGH" then ["line-through"]
    else []
  let resolvedCase :=
    match node.data.textCase with
    | some c => some c
    | none => if chars.length ≠ 0 then node.data.rangeTextCase else none
  let caseCls :=
    if resolvedCase = some "UPPER" then ["uppercase"]
    else if resolvedCase = some "LOWER" then ["lowercase"]
    else if resolvedCase = some "TITLE" then ["capitalize"]
    else []
  let alignCls :=
    if node.data.textAlignHorizontal = "CENTER" then ["text-center"]
    else if node.data.textAlignHorizontal = "RIGHT" then ["text-right"]
    else []
  fsCls ++ famCls ++ weightCls ++ leadingCls ++ trackCls ++ decoCls ++
    caseCls ++ alignCls

/-- The opacity / rotation / blend-mode / min-max section of
`nodeToClasses`. -/
def miscSectionClasses (node : Node) (isFrame : Bool) : List String :=
  let opacityCls :=
    match node.data.opacity with
    | some op => if op < 1 then ["opacity-" ++ toString (jsRound (op * 100))] else []
    | none => []
  let rotCls :=
    match node.data.rotation with
    | some rot =>
      if (1 : Q) / 10 < Q.abs rot then
        ["rotate-[" ++ toString (jsRound (-rot)) ++ "deg]"]
      else []
    | none => []
  let blendCls :=
    match node.data.blendMode with
    | some bm =>
      match BLEND_MODE_MAP bm with
      | some cls => [cls]
      | none => []
    | none => []
  let minMaxCls :=
    if isFrame then
      (match node.data.minWidth with
       | some w => if 0 < w then ["min-w-[" ++ toString (jsRound w) ++ "px]"] else []
       | none => []) ++
        (match node.data.maxWidth with
         | some w => if decide (0 < w) && decide (w < 10000) then
             ["max-w-[" ++ toString (jsRound w) ++ "px]"]
           else []
         | none => []) ++
        (match node.data.minHeight with
         | some h => if 0 < h then ["min-h-[" ++ toString (jsRound h) ++ "px]"] else []
         | none => []) ++
        (match node.data.maxHeight with
         | some h => if decide (0 < h) && decide (h < 10000) then
             ["max-h-[" ++ toString (jsRound h) ++ "px]"]
           else []
         | none => [])
    else []
  opacityCls ++ rotCls ++ blendCls ++ minMaxCls

/-- The wrap-gap rewrite at the end of `nodeToClasses`: replace the generic
gap class by per-axis gaps when the counter-axis spacing differs. -/
def wrapGapAdjust (node : Node) (isFrame : Bool) (classesAll : List String) :
    List String :=
  if isFrame && node.data.layoutWrap = some "WRAP" then
    match node.data.counterAxisSpacing, node.data.itemSpacing with
    | some cs, some sp =>
      if decide (0 < cs) && decide (0 < sp) && decide (cs ≠ sp) then
        let isGapClass := fun (c : String) =>
          startsWithChars "gap-".data c.data &&
            !startsWithChars "gap-x-".data c.data &&
            !startsWithChars "gap-y-".data c.data
        match classesAll.findIdx? isGapClass with
        | some gapIdx =>
          let removed := classesAll.eraseIdx gapIdx
          if node.data.layoutMode.getD "" = "HORIZONTAL" then
            removed ++ ["gap-x-" ++ pxToTailwindSpacing sp,
              "gap-y-" ++ pxToTailwindSpacing cs]
          else
            removed ++ ["gap-y-" ++ pxToTailwindSpacing sp,
              "gap-x-" ++ pxToTailwindSpacing cs]
        | none => classesAll
      else classesAll
    | _, _ => classesAll
  else classesAll

/-- `nodeToClasses(node, parentIsAutoLayout, parentIsWrap, parentWidth,
parentGap, isTopLevel)` from the source, assembled from its sections in
source order. -/
def nodeToClasses (jsm : JsMath) (node : Node) (parentIsAutoLayout : Bool)
    (parentIsWrap : Option Bool := none) (parentWidth : Option Q := none)
    (parentGap : Option Q := none) (isTopLevel : Option Bool := none) :
    List String :=
  if node.visibleB = false then []
  else
    let isFrame := node.ntype = NodeType.frame || node.ntype = NodeType.component ||
      node.ntype = NodeType.instanceNode
    let frameCls := if isFrame then frameSectionClasses node isTopLevel else []
    let sizeCls := sizeSectionClasses node parentIsAutoLayout parentIsWrap
      parentWidth parentGap isTopLevel isFrame
    let fillCls :=
      match node.data.fills with
      | some fills =>
        match fillClassLoop jsm (node.ntype = NodeType.text) fills with
        | some c => [c]
        | none => []
      | none => []
    let strokeCls := strokeSectionClasses node
    let dashCls :=
      match node.data.dashPattern with
      | some dp => if dp.length ≠ 0 then ["border-dashed"] else []
      | none => []
    let radiusCls := radiusSectionClasses node
    let typoCls := if node.ntype = NodeType.text then typoSectionClasses node else []
    let miscCls := miscSectionClasses node isFrame
    let classesBeforeFill := frameCls ++ sizeCls ++ fillCls ++ strokeCls ++
      dashCls ++ radiusCls ++ typoCls ++ miscCls
    let autoFillCls :=
      if parentIsAutoLayout then
        (if node.data.layoutSizingHorizontal = some "FILL" then
          if !(optTruthy parentIsWrap) && !(classesBeforeFill.contains "flex-1") &&
              !(classesBeforeFill.contains "self-stretch") then ["w-full"] else []
        else []) ++
          (if node.data.layoutSizingVertical = some "FILL" then
            if !(classesBeforeFill.contains "flex-1") then ["h-full"] else []
          else [])
      else []
    let effectCls :=
      match node.data.effects with
      | some effects => effectsClassLoop effects false
      | none => []
    wrapGapAdjust node isFrame (classesBeforeFill ++ autoFillCls ++ effectCls)

/-! ## Per-run generation state and the effect monad

The source's per-run mutable state (module-level `assetCounter`, the `assets`
map, the `usedFileNames` set) is threaded explicitly; the only throwing
operation is the host's `exportAsync`, whose failures the source catches with
`try`/`catch` — modelled by `attempt`. -/

structure GenState where
  assetCounter : ℕ := 0
  assets : List (String × AssetEntry) := []
  usedFileNames : List String := []
deriving Repr

/-- The fresh per-run state (`assetCounter = 0`, empty assets, empty used
names), constructed per generation run by the message handler. -/
def freshGenState : GenState := {}

/-- State-plus-exception: errors propagate like uncaught JS exceptions, and
state updates made before a throw survive it. -/
def M (α : Type) : Type := GenState → Except Unit α × GenState

instance : Monad M where
  pure a := fun s => (Except.ok a, s)
  bind m f := fun s =>
    match m s with
    | (Except.ok a, s') => f a s'
    | (Except.error e, s') => (Except.error e, s')

def mGet : M GenState := fun s => (Except.ok s, s)

def mSet (s' : GenState) : M Unit := fun _ => (Except.ok (), s')

/-- JS `try { m } catch { ... }`: the error is swallowed, the state as of the
throw is kept. -/
def attempt {α : Type} (m : M α) : M (Option α) := fun s =>
  match m s with
  | (Except.ok a, s') => (Except.ok (some a), s')
  | (Except.error _, s') => (Except.ok none, s')

/-- The export requests issued by the generator. -/
inductive ExportReq where
  | svg
  | png2x
deriving DecidableEq, Repr

/-- The host's fallible `exportAsync` capability, as a deterministic
function: `Except.error` models a rejected export. -/
def ExportFn : Type := Node → ExportReq → Except Unit (List ℕ)

def liftExport (ex : ExportFn) (n : Node) (r : ExportReq) : M (List ℕ) :=
  fun s => (ex n r, s)

/-- `nextAssetId()`: pre-increment the run counter. -/
def nextAssetId : M String := fun s =>
  (Except.ok ("asset-" ++ toString (s.assetCounter + 1)),
    { s with assetCounter := s.assetCounter + 1 })

/-- `'  '.repeat(indent)`. -/
def padOf (indent : ℕ) : String := String.join (List.replicate indent "  ")

/-- The `{{asset:<id>}}` placeholder contract. -/
def assetRef (id : String) : String := "\x7b\x7basset:" ++ id ++ "\x7d\x7d"

/-- `classes.length > 0 ? \` class="..."\` : ''`. -/
def classAttrStr (classes : List String) : String :=
  if classes.length ≠ 0 then
    " class=\"" ++ String.intercalate " " classes ++ "\""
  else ""

/-- Record an exported asset under an id, generating its unique file name. -/
def recordAsset (id name ext mime : String) (bytes : List ℕ) : M Unit := do
  let st ← mGet
  let (fname, used') := toAssetFileName name ext st.usedFileNames
  mSet { st with
    assets := alSet st.assets id ⟨uint8ToBase64 bytes, mime, fname⟩,
    usedFileNames := used' }

/-- `exportCompositeImage(node, indent, pad, extraClasses, assets,
usedFileNames, isJSX)` from the source: SVG first, PNG fallback, comment on
double failure. -/
def exportCompositeImage (ex : ExportFn) (node : Node) (pad : String)
    (extraClasses : List String) (isJSX : Bool) : M String :=
  let name := if node.name = "" then "icon" else node.name
  let w := jsRound node.width
  let h := jsRound node.height
  let classes := ["shrink-0", "w-[" ++ toString w ++ "px]",
    "h-[" ++ toString h ++ "px]"] ++ extraClasses
  let classAttr := if isJSX then "className" else "class"
  let classStr :=
    if classes.length ≠ 0 then
      " " ++ classAttr ++ "=\"" ++ String.intercalate " " classes ++ "\""
    else ""
  let altText := escapeQuot name
  nextAssetId >>= fun id =>
  attempt (liftExport ex node ExportReq.svg) >>= fun svgTry =>
  (match svgTry with
   | some bytes =>
     recordAsset id name "svg" "image/svg+xml" bytes >>= fun _ => pure true
   | none =>
     attempt (liftExport ex node ExportReq.png2x) >>= fun pngTry =>
     match pngTry with
     | some bytes =>
       recordAsset id name "png" "image/png" bytes >>= fun _ => pure true
     | none => pure false) >>= fun exportedOk =>
  if !exportedOk then
    pure (pad ++ "<!-- " ++ name ++ " -->\n")
  else if isJSX then
    pure (pad ++ "<img" ++ classStr ++ " src=\"" ++ assetRef id ++ "\" alt=\"" ++
      altText ++ "\" width=\x7b" ++ toString w ++ "\x7d height=\x7b" ++
      toString h ++ "\x7d />\n")
  else
    pure (pad ++ "<img" ++ classStr ++ " src=\"" ++ assetRef id ++ "\" alt=\"" ++
      altText ++ "\" width=\"" ++ toString w ++ "\" height=\"" ++ toString h ++
      "\" />\n")

/-- `exportImageFillToAsset(node, assets, usedFileNames)` from the source:
`null` on failure, the asset id and alt text on success. -/
def exportImageFillToAsset (ex : ExportFn) (node : Node) :
    M (Option (String × String)) :=
  let name := if node.name = "" then "image" else node.name
  nextAssetId >>= fun id =>
  attempt (liftExport ex node ExportReq.png2x) >>= fun r =>
  match r with
  | some bytes =>
    recordAsset id name "png" "image/png" bytes >>= fun _ =>
    pure (some (id, escapeQuot name))
  | none => pure none

theorem Node.sizeOf_childrenD_lt (n : Node) : sizeOf n.childrenD < sizeOf n := by
  obtain ⟨d, c⟩ := n
  cases c with
  | none => simp [Node.childrenD, Node.children]
  | some cs => simp [Node.childrenD, Node.children]; omega

/-! ## `generateLayerHTML` (source lines 3201-3357) -/

mutual

/-- `generateLayerHTML(node, indent, isTopLevel, parentIsAutoLayout, assets,
usedFileNames, parentIsWrap, parentWidth, parentGap)` from the source:
invisible nodes produce nothing; image fills export and either short-circuit
into an `<img>` or become a background attribute; then the per-kind
branches. -/
def generateLayerHTML (jsm : JsMath) (ex : ExportFn) (node : Node)
    (indent : ℕ) (isTopLevel parentIsAutoLayout : Bool)
    (parentIsWrap : Option Bool) (parentWidth parentGap : Option Q) :
    M String :=
  if node.visibleB = false then pure ""
  else
    let pad := padOf indent
    let classes := nodeToClasses jsm node parentIsAutoLayout parentIsWrap
      parentWidth parentGap (some isTopLevel)
    if hasImageFill node then
      let imageUsage := classifyImageFillUsage node parentIsAutoLayout
      exportImageFillToAsset ex node >>= fun exported =>
      if imageUsage = "image" then
        let imgClasses := classes ++ getImageClasses node parentIsAutoLayout
        let imgClassStr := classAttrStr imgClasses
        match exported with
        | none =>
          let alt := escapeQuot (if node.name = "" then "image" else node.name)
          pure (pad ++ "<img" ++ imgClassStr ++
            " src=\"/placeholder.svg\" alt=\"" ++ alt ++ "\" />\n")
        | some (id, alt) =>
          pure (pad ++ "<img" ++ imgClassStr ++ " src=\"" ++ assetRef id ++
            "\" alt=\"" ++ alt ++ "\" />\n")
      else
        match exported with
        | some (id, _) =>
          generateLayerRest jsm ex node indent isTopLevel
            (classes ++ getBackgroundImageClasses node)
            (" style=\"background-image: url(" ++ apos ++ assetRef id ++ apos ++
              ");\"")
        | none => generateLayerRest jsm ex node indent isTopLevel classes ""
    else generateLayerRest jsm ex node indent isTopLevel classes ""
termination_by (sizeOf node, 1)
decreasing_by
  all_goals
    first
      | exact Prod.Lex.right _ (by omega)
      | (apply Prod.Lex.left
         first
           | exact Node.sizeOf_childrenD_lt _
           | (simp only [List.cons.sizeOf_spec]; omega))

/-- The remainder of `generateLayerHTML` after the image-fill handling:
semantic detection and the text / vector / rectangle / group / frame /
fallback branches. -/
def generateLayerRest (jsm : JsMath) (ex : ExportFn) (node : Node)
    (indent : ℕ) (isTopLevel : Bool) (classes : List String)
    (backgroundImageAttr : String) : M String :=
  let pad := padOf indent
  let semantic := detectSemanticElement node isTopLevel
  let allClasses := classes ++ semantic.extraClasses
  if node.ntype = NodeType.text then
    let tag := semantic.tag
    let text := getTextContent node
    pure (pad ++ "<" ++ tag ++ classAttrStr allClasses ++ ">" ++ text ++
      "</" ++ tag ++ ">\n")
  else if node.ntype = NodeType.vector || node.ntype = NodeType.ellipse ||
      node.ntype = NodeType.line || node.ntype = NodeType.star ||
      node.ntype = NodeType.polygon then
    let vecClasses := allClasses ++ getVectorImgClasses
    let name := if node.name = "" then "icon" else node.name
    nextAssetId >>= fun id =>
    attempt (liftExport ex node ExportReq.svg) >>= fun r =>
    match r with
    | some bytes =>
      recordAsset id name "svg" "image/svg+xml" bytes >>= fun _ =>
      let w := jsRound node.width
      let h := jsRound node.height
      pure (pad ++ "<img" ++ classAttrStr vecClasses ++ " src=\"" ++
        assetRef id ++ "\" alt=\"" ++ escapeQuot name ++ "\" width=\"" ++
        toString w ++ "\" height=\"" ++ toString h ++ "\" />\n")
    | none => pure (pad ++ "<!-- " ++ name ++ " -->\n")
  else if node.ntype = NodeType.rectangle then
    if semantic.selfClosing then
      pure (pad ++ "<" ++ semantic.tag ++ classAttrStr allClasses ++
        backgroundImageAttr ++ " />\n")
    else
      pure (pad ++ "<div" ++ classAttrStr allClasses ++ backgroundImageAttr ++
        "></div>\n")
  else if node.ntype = NodeType.group then
    if shouldExportAsCompositeImage node then
      exportCompositeImage ex node pad [] false
    else
      genGroupChildren jsm ex node.childrenD indent >>= fun inner =>
      pure (pad ++ "<div" ++ classAttrStr allClasses ++ ">\n" ++ inner ++
        pad ++ "</div>\n")
  else if node.ntype = NodeType.frame || node.ntype = NodeType.component ||
      node.ntype = NodeType.instanceNode then
    if shouldExportAsCompositeImage node then
      exportCompositeImage ex node pad allClasses false
    else
      let tag := semantic.tag
      let isAutoLayout := layoutModeActive node
      let isOverlap := !isAutoLayout && node.childrenD.length ≠ 0 &&
        inferLayoutFromChildren node = "overlap"
      let isWrap := isAutoLayout && node.data.layoutWrap = some "WRAP"
      let frameGap := node.data.itemSpacing.getD 0
      let framePl := node.data.paddingLeft.getD 0
      let framePr := node.data.paddingRight.getD 0
      let frameInnerWidth := Q.ofInt (jsRound node.width) - framePl - framePr
      let attrStr := if semantic.attrs ≠ "" then " " ++ semantic.attrs else ""
      if semantic.selfClosing && node.childrenD.length = 0 then
        pure (pad ++ "<" ++ tag ++ classAttrStr allClasses ++
          backgroundImageAttr ++ attrStr ++ " />\n")
      else
        let commentStr :=
          if node.ntype = NodeType.component || node.ntype = NodeType.instanceNode
          then pad ++ "<!-- " ++ node.name ++ " -->\n"
          else ""
        let openStr := pad ++ "<" ++ tag ++ classAttrStr allClasses ++
          backgroundImageAttr ++ attrStr ++ ">\n"
        genFrameChildren jsm ex node.childrenD pad indent isOverlap
            semantic.wrapChildren isAutoLayout isWrap frameInnerWidth
            frameGap >>= fun inner =>
        pure (commentStr ++ openStr ++ inner ++ pad ++ "</" ++ tag ++ ">\n")
  else
    pure (pad ++ "<div" ++ classAttrStr allClasses ++ backgroundImageAttr ++
      "></div>\n")
termination_by (sizeOf node, 0)
decreasing_by
  all_goals
    first
      | exact Prod.Lex.right _ (by omega)
      | (apply Prod.Lex.left
         first
           | exact Node.sizeOf_childrenD_lt _
           | (simp only [List.cons.sizeOf_spec]; omega))

/-- The group-unwrap child loop (`for (const child of group.children)`). -/
def genGroupChildren (jsm : JsMath) (ex : ExportFn) (children : List Node)
    (indent : ℕ) : M String :=
  match children with
  | [] => pure ""
  | child :: rest =>
    generateLayerHTML jsm ex child (indent + 1) false false
        none none none >>= fun piece =>
    genGroupChildren jsm ex rest indent >>= fun restS =>
    pure (piece ++ restS)
termination_by (sizeOf children, 2)
decreasing_by
  all_goals
    first
      | exact Prod.Lex.right _ (by omega)
      | (apply Prod.Lex.left
         first
           | exact Node.sizeOf_childrenD_lt _
           | (simp only [List.cons.sizeOf_spec]; omega))

/-- The frame child loop: skip hidden children, absolute-position overlap
children, wrap list items, or recurse plainly. -/
def genFrameChildren (jsm : JsMath) (ex : ExportFn) (children : List Node)
    (pad : String) (indent : ℕ) (isOverlap : Bool)
    (wrapChildren : Option String) (isAutoLayout isWrap : Bool)
    (frameInnerWidth frameGap : Q) : M String :=
  match children with
  | [] => pure ""
  | child :: rest =>
    (if child.visibleB = false then pure ""
     else if isOverlap then
       let childClasses0 := nodeToClasses jsm child false none none none none
       let top := jsRound child.y
       let left := jsRound child.x
       let childClasses := childClasses0 ++ ["absolute"] ++
         (if 0 < top then ["top-" ++ pxToTailwindSpacing (Q.ofInt top)] else []) ++
         (if 0 < left then ["left-" ++ pxToTailwindSpacing (Q.ofInt left)] else [])
       if child.ntype = NodeType.text then
         let childSemantic := detectSemanticElement child false
         let text := getTextContent child
         pure (pad ++ "  <" ++ childSemantic.tag ++ " class=\"" ++
           String.intercalate " " childClasses ++ "\">" ++ text ++ "</" ++
           childSemantic.tag ++ ">\n")
       else
         generateLayerHTML jsm ex child (indent + 2) false false
             none none none >>= fun inner =>
         pure (pad ++ "  <div" ++ classAttrStr childClasses ++ ">\n" ++ inner ++
           pad ++ "  </div>\n")
     else
       match wrapChildren with
       | some w =>
         generateLayerHTML jsm ex child (indent + 2) false
             isAutoLayout (some isWrap) (some frameInnerWidth)
             (some frameGap) >>= fun inner =>
         pure (pad ++ "  <" ++ w ++ ">\n" ++ inner ++ pad ++ "  </" ++ w ++
           ">\n")
       | none =>
         generateLayerHTML jsm ex child (indent + 1) false isAutoLayout
           (some isWrap) (some frameInnerWidth) (some frameGap)) >>= fun piece =>
    genFrameChildren jsm ex rest pad indent isOverlap wrapChildren
        isAutoLayout isWrap frameInnerWidth frameGap >>= fun restS =>
    pure (piece ++ restS)
termination_by (sizeOf children, 2)
decreasing_by
  all_goals
    first
      | exact Prod.Lex.right _ (by omega)
      | (apply Prod.Lex.left
         first
           | exact Node.sizeOf_childrenD_lt _
           | (simp only [List.cons.sizeOf_spec]; omega))

end

/-! ## Claim C8: export failures never abort the walk -/

/-- A computation that returns normally from every state: no uncaught
exception can escape it. -/
def neverFails {α : Type} (m : M α) : Prop :=
  ∀ s, ∃ a s', m s = (Except.ok a, s')

theorem neverFails_pure {α : Type} (a : α) : neverFails (pure a : M α) :=
  fun s => ⟨a, s, rfl⟩

theorem neverFails_bind {α β : Type} {m : M α} {f : α → M β}
    (hm : neverFails m) (hf : ∀ a, neverFails (f a)) : neverFails (m >>= f) := by
  intro s
  obtain ⟨a, s', heq⟩ := hm s
  obtain ⟨b, s'', heq2⟩ := hf a s'
  refine ⟨b, s'', ?_⟩
  show (match m s with
    | (Except.ok a, s') => f a s'
    | (Except.error e, s') => (Except.error e, s')) = _
  rw [heq]
  exact heq2

theorem neverFails_attempt {α : Type} (m : M α) : neverFails (attempt m) := by
  intro s
  rcases h : m s with ⟨fst, s'⟩
  cases fst with
  | ok a => exact ⟨some a, s', by simp [attempt, h]⟩
  | error e => exact ⟨none, s', by simp [attempt, h]⟩

theorem neverFails_mGet : neverFails mGet := fun s => ⟨s, s, rfl⟩

theorem neverFails_mSet (s0 : GenState) : neverFails (mSet s0) :=
  fun s => ⟨(), s0, rfl⟩

theorem neverFails_nextAssetId : neverFails nextAssetId :=
  fun s => ⟨_, _, rfl⟩

theorem neverFails_recordAsset (id name ext mime : String) (bytes : List ℕ) :
    neverFails (recordAsset id name ext mime bytes) := by
  unfold recordAsset
  exact neverFails_bind neverFails_mGet (fun st => neverFails_mSet _)

theorem neverFails_exportCompositeImage (ex : ExportFn) (node : Node)
    (pad : String) (extraClasses : List String) (isJSX : Bool) :
    neverFails (exportCompositeImage ex node pad extraClasses isJSX) := by
  unfold exportCompositeImage
  dsimp only
  apply neverFails_bind neverFails_nextAssetId
  intro id
  apply neverFails_bind (neverFails_attempt _)
  intro svgTry
  apply neverFails_bind
  · split
    · exact neverFails_bind (neverFails_recordAsset _ _ _ _ _)
        (fun _ => neverFails_pure _)
    · apply neverFails_bind (neverFails_attempt _)
      intro pngTry
      split
      · exact neverFails_bind (neverFails_recordAsset _ _ _ _ _)
          (fun _ => neverFails_pure _)
      · exact neverFails_pure _
  · intro exportedOk
    split
    · exact neverFails_pure _
    · split
      · exact neverFails_pure _
      · exact neverFails_pure _

theorem neverFails_exportImageFillToAsset (ex : ExportFn) (node : Node) :
    neverFails (exportImageFillToAsset ex node) := by
  unfold exportImageFillToAsset
  dsimp only
  apply neverFails_bind neverFails_nextAssetId
  intro id
  apply neverFails_bind (neverFails_attempt _)
  intro r
  split
  · exact neverFails_bind (neverFails_recordAsset _ _ _ _ _)
      (fun _ => neverFails_pure _)
  · exact neverFails_pure _

mutual

theorem generateLayerHTML_neverFails (jsm : JsMath) (ex : ExportFn)
    (node : Node) (indent : ℕ) (itl pial : Bool) (piw : Option Bool)
    (pw pg : Option Q) :
    neverFails (generateLayerHTML jsm ex node indent itl pial piw pw pg) := by
  unfold generateLayerHTML
  split
  · exact neverFails_pure _
  · dsimp only
    split
    · apply neverFails_bind (neverFails_exportImageFillToAsset _ _)
      intro exported
      split
      · split
        · exact neverFails_pure _
        · exact neverFails_pure _
      · split
        · apply generateLayerRest_neverFails
        · apply generateLayerRest_neverFails
    · apply generateLayerRest_neverFails
termination_by (sizeOf node, 1)
decreasing_by
  all_goals subst_vars
  all_goals
    first
      | exact Prod.Lex.right _ (by omega)
      | (apply Prod.Lex.left
         first
           | exact Node.sizeOf_childrenD_lt _
           | (simp only [List.cons.sizeOf_spec]; omega))

theorem generateLayerRest_neverFails (jsm : JsMath) (ex : ExportFn)
    (node : Node) (indent : ℕ) (itl : Bool) (classes : List String)
    (backgroundImageAttr : String) :
    neverFails (generateLayerRest jsm ex node indent itl classes
      backgroundImageAttr) := by
  unfold generateLayerRest
  dsimp only
  split
  · exact neverFails_pure _
  · split
    · apply neverFails_bind neverFails_nextAssetId
      intro id
      apply neverFails_bind (neverFails_attempt _)
      intro r
      split
      · exact neverFails_bind (neverFails_recordAsset _ _ _ _ _)
          (fun _ => neverFails_pure _)
      · exact neverFails_pure _
    · split
      · split
        · exact neverFails_pure _
        · exact neverFails_pure _
      · split
        · split
          · exact neverFails_exportCompositeImage _ _ _ _ _
          · exact neverFails_bind (genGroupChildren_neverFails _ _ _ _)
              (fun _ => neverFails_pure _)
        · split
          · split
            · exact neverFails_exportCompositeImage _ _ _ _ _
            · split
              · exact neverFails_pure _
              · exact neverFails_bind
                  (genFrameChildren_neverFails _ _ _ _ _ _ _ _ _ _ _)
                  (fun _ => neverFails_pure _)
          · exact neverFails_pure _
termination_by (sizeOf node, 0)
decreasing_by
  all_goals subst_vars
  all_goals
    first
      | exact Prod.Lex.right _ (by omega)
      | (apply Prod.Lex.left
         first
           | exact Node.sizeOf_childrenD_lt _
           | (simp only [List.cons.sizeOf_spec]; omega))

theorem genGroupChildren_neverFails (jsm : JsMath) (ex : ExportFn)
    (children : List Node) (indent : ℕ) :
    neverFails (genGroupChildren jsm ex children indent) := by
  unfold genGroupChildren
  split
  · exact neverFails_pure _
  · exact neverFails_bind (generateLayerHTML_neverFails _ _ _ _ _ _ _ _ _)
      (fun _ => neverFails_bind (genGroupChildren_neverFails _ _ _ _)
        (fun _ => neverFails_pure _))
termination_by (sizeOf children, 2)
decreasing_by
  all_goals subst_vars
  all_goals
    first
      | exact Prod.Lex.right _ (by omega)
      | (apply Prod.Lex.left
         first
           | exact Node.sizeOf_childrenD_lt _
           | (simp only [List.cons.sizeOf_spec]; omega))

theorem genFrameChildren_neverFails (jsm : JsMath) (ex : ExportFn)
    (children : List Node) (pad : String) (indent : ℕ) (isOverlap : Bool)
    (wrapChildren : Option String) (isAutoLayout isWrap : Bool)
    (frameInnerWidth frameGap : Q) :
    neverFails (genFrameChildren jsm ex children pad indent isOverlap
      wrapChildren isAutoLayout isWrap frameInnerWidth frameGap) := by
  unfold genFrameChildren
  split
  · exact neverFails_pure _
  · apply neverFails_bind
    · split
      · exact neverFails_pure _
      · split
        · dsimp only
          split
          · exact neverFails_pure _
          · exact neverFails_bind (generateLayerHTML_neverFails _ _ _ _ _ _ _ _ _)
              (fun _ => neverFails_pure _)
        · split
          · exact neverFails_bind (generateLayerHTML_neverFails _ _ _ _ _ _ _ _ _)
              (fun _ => neverFails_pure _)
          · exact generateLayerHTML_neverFails _ _ _ _ _ _ _ _ _
    · intro piece
      exact neverFails_bind (genFrameChildren_neverFails _ _ _ _ _ _ _ _ _ _ _)
        (fun _ => neverFails_pure _)
termination_by (sizeOf children, 2)
decreasing_by
  all_goals subst_vars
  all_goals
    first
      | exact Prod.Lex.right _ (by omega)
      | (apply Prod.Lex.left
         first
           | exact Node.sizeOf_childrenD_lt _
           | (simp only [List.cons.sizeOf_spec]; omega))

end

/-! ## Token scanning (source lines 640-846) -/

/-- JS `Set.prototype.add` on an arbitrary element type (insertion order). -/
def listSetAdd {α : Type} [DecidableEq α] (l : List α) (x : α) : List α :=
  if l.contains x then l else l ++ [x]

theorem Node.sizeOf_childrenD_lt_cons (n : Node) (rest : List Node) :
    sizeOf n.childrenD < sizeOf (n :: rest) := by
  have h := Node.sizeOf_childrenD_lt n
  simp only [List.cons.sizeOf_spec]
  omega

/-- `figma.currentPage.findAll()`: every node of the page's subtrees in
document (depth-first, parent before children) order. -/
def findAllNodes : List Node → List Node
  | [] => []
  | n :: rest => n :: (findAllNodes n.childrenD ++ findAllNodes rest)
termination_by l => sizeOf l
decreasing_by
  all_goals first
    | exact Node.sizeOf_childrenD_lt_cons _ _
    | (simp only [List.cons.sizeOf_spec]; omega)

/-- One scanned typography entry (`ScannedTokens.typography` element). -/
structure ScannedTypo where
  fontSize : Q
  fontFamily : String
  fontStyle : String
  lineHeight : Option Q := none
deriving DecidableEq, Repr

/-- One scanned shadow entry (`ScannedTokens.shadows` element); `stype` is
the `type` field, `""` for drop shadows and `"inset"` for inner shadows. -/
structure ScannedShadow where
  stype : String
  offsetX : Q
  offsetY : Q
  blur : Q
  spread : Q
  color : String
deriving DecidableEq, Repr

/-- One gradient stop of a scanned gradient. -/
structure ScannedStop where
  color : String
  position : Q
deriving DecidableEq, Repr

/-- One scanned gradient entry; the ellipse/center fields are set only for
radial gradients (`undefined` otherwise, modelled as `none`). -/
structure ScannedGradient where
  gtype : String
  angle : Q
  stops : List ScannedStop
  ellipseX : Option Q := none
  ellipseY : Option Q := none
  centerX : Option Q := none
  centerY : Option Q := none
deriving DecidableEq, Repr

/-- One scanned animation token. -/
structure ScannedAnim where
  duration : Q
  easing : String
deriving DecidableEq, Repr

/-- The `ScannedTokens` interface (source lines 22-35). -/
structure ScannedTokens where
  colors : List ScannedColor
  typography : List ScannedTypo
  spacing : List Q
  radii : List Q
  shadows : List ScannedShadow
  gradients : List ScannedGradient
  animations : List ScannedAnim
deriving DecidableEq, Repr

/-- The seven collections `scanNodesForTokens` accumulates while walking the
node list (JS `Map`s and `Set`s, all insertion-ordered). -/
structure ScanState where
  colorMap : List (String × (Q × List String)) := []
  typographySet : List (String × ScannedTypo) := []
  spacingSet : List Q := []
  radiiSet : List Q := []
  shadowMap : List (String × ScannedShadow) := []
  gradientMap : List (String × ScannedGradient) := []
  animationMap : List (String × ScannedAnim) := []
deriving Repr

/-- One solid paint folded into the color map: count incremented and the
usage role added to the `usedAs` set. -/
def addSolidColor (m : List (String × (Q × List String))) (role : String)
    (p : Paint) : List (String × (Q × List String)) :=
  if p.ptype = PaintType.solid && p.visibleNotFalse then
    let hex := rgbaToHex p.r p.g p.b (p.opacity.getD 1)
    let entry := (alGet m hex).getD (0, [])
    alSet m hex (entry.1 + 1, setAdd entry.2 role)
  else m

/-- The typography branch of the scan loop: text nodes with a plain (not
`figma.mixed`) font size and font name, all three key parts truthy; the line
height ratio is kept at 2 decimals when the unit is PIXELS or PERCENT. -/
def scanTypography (node : Node) (m : List (String × ScannedTypo)) :
    List (String × ScannedTypo) :=
  if node.ntype = NodeType.text then
    match node.data.fontSize, node.data.fontName with
    | some fs, some fn =>
      if fs ≠ 0 && fn.family ≠ "" && fn.style ≠ "" then
        let lh : Option Q :=
          match node.data.lineHeight with
          | some vu =>
            if vu.unit = "PIXELS" then some (jsToFixedVal (vu.value / fs) 2)
            else if vu.unit = "PERCENT" then some (jsToFixedVal (vu.value / 100) 2)
            else none
          | none => none
        let key := numToString fs ++ "-" ++ fn.family ++ "-" ++ fn.style
        match alGet m key with
        | some _ => m
        | none => alSet m key
            { fontSize := fs, fontFamily := fn.family, fontStyle := fn.style,
              lineHeight := lh }
      else m
    | _, _ => m
  else m

/-- The auto-layout spacing branch: positive item spacing and paddings of
nodes with an active layout mode. -/
def scanSpacing (node : Node) (s : List Q) : List Q :=
  match node.data.layoutMode with
  | some lm =>
    if lm ≠ "" && lm ≠ "NONE" then
      let add := fun (s : List Q) (v : Option Q) =>
        match v with
        | some q => if 0 < q then listSetAdd s q else s
        | none => s
      add (add (add (add (add s node.data.itemSpacing) node.data.paddingTop)
        node.data.paddingRight) node.data.paddingBottom) node.data.paddingLeft
    else s
  | none => s

/-- The border-radius branch: a plain positive numeric `cornerRadius`
(`figma.mixed` corners are skipped by the `typeof` guard). -/
def scanRadius (node : Node) (s : List Q) : List Q :=
  match node.data.cornerRadius with
  | CornerRadiusVal.uniform r => if 0 < r then listSetAdd s r else s
  | _ => s

/-- The shadow branch: visible drop/inner shadows keyed by type, offset,
blur, spread and color.  The host always supplies `color`, `offset` and
`radius` on shadow effects; absent optional fields default as in the
source (`spread || 0`, alpha compared `< 1` fails for undefined). -/
def scanShadows (node : Node) (m : List (String × ScannedShadow)) :
    List (String × ScannedShadow) :=
  match node.data.effects with
  | some effects =>
    effects.foldl (fun acc e =>
      if (e.etype = "DROP_SHADOW" || e.etype = "INNER_SHADOW") &&
          e.visibleNotFalse then
        let col := e.color.getD ⟨0, 0, 0, none⟩
        let off := e.offset.getD (0, 0)
        let blur := e.radius.getD 0
        let spread := e.spread.getD 0
        let hex := rgbaToHex col.r col.g col.b (col.a.getD 1)
        let key := e.etype ++ "-" ++ numToString off.1 ++ "-" ++
          numToString off.2 ++ "-" ++ numToString blur ++ "-" ++
          numToString spread ++ "-" ++ hex
        match alGet acc key with
        | some _ => acc
        | none => alSet acc key
            { stype := if e.etype = "INNER_SHADOW" then "inset" else "",
              offsetX := off.1, offsetY := off.2, blur := blur,
              spread := spread, color := hex }
      else acc) m
  | none => m

/-- One gradient stop mapped to its scanned form. -/
def gradStopOf (s : GStop) : ScannedStop :=
  { color := rgbaToHex s.r s.g s.b (s.a.getD 1),
    position := Q.ofInt (jsRound (s.position * 100)) }

/-- A possibly-absent number interpolated into the gradient key with
`x || ''`: undefined and 0 both print as the empty string. -/
def gradKeyPart (o : Option Q) : String :=
  match o with
  | some v => if v = 0 then "" else numToString v
  | none => ""

/-- `extractRadialGradientParams(transform)` from the source: invert the 2x3
affine gradient transform and read off the CSS center and ellipse scale,
with the degenerate fallbacks. -/
def extractRadialGradientParams (jsm : JsMath) (transform : List (List Q)) :
    Q × Q × Q × Q :=
  if transform.length < 2 then (100, 100, 50, 50)
  else
    let row0 := transform.headD []
    let row1 := (transform.drop 1).headD []
    let a := row0.headD 0
    let b := (row0.drop 1).headD 0
    let tx := (row0.drop 2).headD 0
    let c := row1.headD 0
    let d := (row1.drop 1).headD 0
    let ty := (row1.drop 2).headD 0
    let det := a * d - b * c
    if Q.abs det < Q.norm 1 10000 then (100, 100, 50, 50)
    else
      let invA := d / det
      let invB := (-b) / det
      let invC := (-c) / det
      let invD := a / det
      let invTx := (b * ty - d * tx) / det
      let invTy := (c * tx - a * ty) / det
      let half := Q.norm 1 2
      let centerX := Q.ofInt (jsRound ((invA * half + invB * half + invTx) * 10000)) / 100
      let centerY := Q.ofInt (jsRound ((invC * half + invD * half + invTy) * 10000)) / 100
      let vxx := invA * half
      let vxy := invC * half
      let vyx := invB * half
      let vyy := invD * half
      let scaleX := jsm.sqrt (vxx * vxx + vxy * vxy) * 2
      let scaleY := jsm.sqrt (vyx * vyx + vyy * vyy) * 2
      let ellipseX := Q.min 200 (Q.ofInt (jsRound (scaleX * 10000)) / 100)
      let ellipseY := Q.min 200 (Q.ofInt (jsRound (scaleY * 10000)) / 100)
      (ellipseX, ellipseY, centerX, centerY)

/-- The gradient branch of the scan loop for one paint: visible linear or
radial gradients, the linear angle from the first two handles (falling back
to the transform), the radial ellipse/center from the first three handles
(falling back to the transform inversion), deduplicated by the stop/angle/
ellipse key. -/
def scanGradientPaint (jsm : JsMath) (m : List (String × ScannedGradient))
    (p : Paint) : List (String × ScannedGradient) :=
  if (p.ptype = PaintType.gradientLinear || p.ptype = PaintType.gradientRadial) &&
      p.visibleNotFalse then
    let stops := (p.gradientStops.getD []).map gradStopOf
    let isLinear := p.ptype = PaintType.gradientLinear
    let angle : Q :=
      if isLinear then
        match p.gradientHandlePositions with
        | some handles =>
          if 2 ≤ handles.length then
            let s0 := handles.headD (0, 0)
            let e0 := (handles.drop 1).headD (0, 0)
            let dx := e0.1 - s0.1
            let dy := e0.2 - s0.2
            let rawAngle := jsMod (jsm.atan2 dy dx * ((180 : Q) / jsm.pi) + 360) 360
            Q.ofInt (jsRound (jsMod (rawAngle + 90) 360 * 100)) / 100
          else getGradientAngle jsm p.gradientTransform
        | none => getGradientAngle jsm p.gradientTransform
      else 0
    let radialParams : Option (Q × Q × Q × Q) :=
      if isLinear then none
      else
        match p.gradientHandlePositions with
        | some handles =>
          if 3 ≤ handles.length then
            let c0 := handles.headD (0, 0)
            let h1 := (handles.drop 1).headD (0, 0)
            let h2 := (handles.drop 2).headD (0, 0)
            let cx := Q.ofInt (jsRound (c0.1 * 10000)) / 100
            let cy := Q.ofInt (jsRound (c0.2 * 10000)) / 100
            let ex := Q.ofInt (jsRound (jsm.sqrt ((h1.1 - c0.1) * (h1.1 - c0.1) +
              (h1.2 - c0.2) * (h1.2 - c0.2)) * 10000)) / 100
            let ey := Q.ofInt (jsRound (jsm.sqrt ((h2.1 - c0.1) * (h2.1 - c0.1) +
              (h2.2 - c0.2) * (h2.2 - c0.2)) * 10000)) / 100
            some (ex, ey, cx, cy)
          else some (extractRadialGradientParams jsm p.gradientTransform)
        | none => some (extractRadialGradientParams jsm p.gradientTransform)
    let ex := radialParams.map (fun r => r.1)
    let ey := radialParams.map (fun r => r.2.1)
    let cx := radialParams.map (fun r => r.2.2.1)
    let cy := radialParams.map (fun r => r.2.2.2)
    let key := String.intercalate "|"
        (stops.map (fun s => s.color ++ "-" ++ numToString s.position)) ++
      "|" ++ numToString angle ++ "|" ++ gradKeyPart ex ++ "|" ++ gradKeyPart ey
    match alGet m key with
    | some _ => m
    | none => alSet m key
        { gtype := if isLinear then "linear" else "radial", angle := angle,
          stops := stops, ellipseX := ex, ellipseY := ey, centerX := cx,
          centerY := cy }
  else m

/-- The animation branch: reactions carrying a transition (absent actions or
transitions are `none`), duration in rounded milliseconds, easing type
defaulting to EASE_IN_AND_OUT when absent or empty. -/
def scanReactions (node : Node) (m : List (String × ScannedAnim)) :
    List (String × ScannedAnim) :=
  match node.data.reactions with
  | some reactions =>
    reactions.foldl (fun acc r =>
      match r.transition with
      | some t =>
        let duration : Q :=
          match t.duration with
          | some d => Q.ofInt (jsRound (d * 1000))
          | none => 0
        let easingType :=
          match t.easingType with
          | some e => if e = "" then "EASE_IN_AND_OUT" else e
          | none => "EASE_IN_AND_OUT"
        if 0 < duration then
          let key := numToString duration ++ "-" ++ easingType
          match alGet acc key with
          | some _ => acc
          | none => alSet acc key { duration := duration, easing := easingType }
        else acc
      | none => acc) m
  | none => m

/-- The whole loop body of `scanNodesForTokens` for one node, in source
order: fill colors, stroke colors, typography, spacing, radii, shadows,
gradients, animations. -/
def scanNode (jsm : JsMath) (st : ScanState) (node : Node) : ScanState :=
  let role := if node.ntype = NodeType.text then "text" else "fill"
  let colorMap :=
    match node.data.fills with
    | some fills => fills.foldl (fun acc p => addSolidColor acc role p) st.colorMap
    | none => st.colorMap
  let colorMap :=
    match node.data.strokes with
    | some strokes => strokes.foldl (fun acc p => addSolidColor acc "stroke" p) colorMap
    | none => colorMap
  let typographySet := scanTypography node st.typographySet
  let spacingSet := scanSpacing node st.spacingSet
  let radiiSet := scanRadius node st.radiiSet
  let shadowMap := scanShadows node st.shadowMap
  let gradientMap :=
    match node.data.fills with
    | some fills => fills.foldl (fun acc p => scanGradientPaint jsm acc p) st.gradientMap
    | none => st.gradientMap
  let animationMap := scanReactions node st.animationMap
  { colorMap := colorMap, typographySet := typographySet,
    spacingSet := spacingSet, radiiSet := radiiSet, shadowMap := shadowMap,
    gradientMap := gradientMap, animationMap := animationMap }

/-- `scanNodesForTokens()` from the source, over the current page's root
nodes: fold the per-node extraction over all nodes in document order, then
convert the maps and sets to (sorted) arrays. -/
def scanNodesForTokens (jsm : JsMath) (roots : List Node) : ScannedTokens :=
  let st := (findAllNodes roots).foldl (scanNode jsm) {}
  { colors := st.colorMap.map (fun e =>
      { hex := e.1, count := e.2.1, usedAs := e.2.2 }),
    typography := jsSortStable (fun a b => b.fontSize - a.fontSize)
      (st.typographySet.map (fun e => e.2)),
    spacing := jsSortStable (fun a b => a - b) st.spacingSet,
    radii := jsSortStable (fun a b => a - b) st.radiiSet,
    shadows := jsSortStable (fun a b => a.blur - b.blur)
      (st.shadowMap.map (fun e => e.2)),
    gradients := st.gradientMap.map (fun e => e.2),
    animations := jsSortStable (fun a b => a.duration - b.duration)
      (st.animationMap.map (fun e => e.2)) }

/-! ## CSS generation from scanned tokens (source lines 340-366, 473-493,
619-628, 848-872, 875-1113) -/

def SIZE_LABELS_SHORT : List String := ["sm", "md", "lg"]

def SIZE_LABELS_MEDIUM : List String := ["xs", "sm", "md", "lg", "xl"]

def SIZE_LABELS_LONG : List String :=
  ["xs", "sm", "md", "lg", "xl", "2xl", "3xl", "4xl", "5xl"]

/-- `getSizeLabels(count)` from the source. -/
def getSizeLabels (count : ℕ) : List String :=
  if count ≤ 3 then SIZE_LABELS_SHORT.take count
  else if count ≤ 5 then SIZE_LABELS_MEDIUM.take count
  else (List.range count).map (fun i =>
    if i < SIZE_LABELS_LONG.length then SIZE_LABELS_LONG.getD i ""
    else toString (i - SIZE_LABELS_LONG.length + 6) ++ "xl")

def TYPO_ROLES : List String := ["h1", "h2", "h3", "h4", "body", "caption", "small"]

/-- `getTypoRoles(count)` from the source. -/
def getTypoRoles (count : ℕ) : List String :=
  if count ≤ TYPO_ROLES.length then TYPO_ROLES.take count
  else TYPO_ROLES ++ (List.range (count - TYPO_ROLES.length)).map
    (fun i => "style-" ++ toString (TYPO_ROLES.length + i + 1))

/-- `gcd(a, b)` from the source: both operands are rounded first, then
Euclid's loop with the JS `%` remainder.  On the rounded values — which are
non-negative for every input the spacing scan produces, since only positive
spacings are collected — the loop computes exactly `Int.gcd`. -/
def jsGcd (a b : Q) : ℤ := (Int.gcd (jsRound a) (jsRound b) : ℤ)

/-- The accumulation loop of `findGCD`, with its early exit at 1. -/
def findGCDLoop (result : Q) : List Q → Q
  | [] => result
  | x :: rest =>
    let r := Q.ofInt (jsGcd result x)
    if r = 1 then 1 else findGCDLoop r rest

/-- `findGCD(numbers)` from the source: 0 for the empty list, the sole
element unchanged for a singleton, Euclid's fold otherwise. -/
def findGCD (numbers : List Q) : Q :=
  match numbers with
  | [] => 0
  | [x] => x
  | x :: rest => findGCDLoop x rest

/-- `generateClampFontSize(remValue)` from the source: fluid size between
20vw and 90vw viewports, min threequarters of the target size. -/
def generateClampFontSize (remValue : Q) : String :=
  let minRem := remValue * Q.norm 3 4
  let maxRem := remValue
  let minVw : Q := 20
  let maxVw : Q := 90
  let slope := (maxRem - minRem) / (maxVw - minVw)
  let intercept := minRem - slope * minVw
  let vwCoeff := slope * 100
  "clamp(" ++ jsToFixedString minRem 3 ++ "rem, " ++
    jsToFixedString intercept 3 ++ "rem + " ++ jsToFixedString vwCoeff 2 ++
    "vw, " ++ jsToFixedString maxRem 3 ++ "rem)"

/-- `easingToCSS(easing)` from the source. -/
def easingToCSS (easing : String) : String :=
  if easing = "EASE_IN" then "ease-in"
  else if easing = "EASE_OUT" then "ease-out"
  else if easing = "EASE_IN_AND_OUT" then "ease-in-out"
  else if easing = "LINEAR" then "linear"
  else "ease-in-out"

/-- Render a font kind as the string it interpolates to. -/
def FontKind.str : FontKind → String
  | .sans => "sans"
  | .serif => "serif"
  | .mono => "mono"

/-- The `SYSTEM_FALLBACKS` record of the font-families section. -/
def systemFallback : FontKind → String
  | .sans => "ui-sans-serif, system-ui, sans-serif"
  | .serif => "ui-serif, Georgia, serif"
  | .mono => "ui-monospace, SFMono-Regular, monospace"

/-- The variables-path family slug:
`family.toLowerCase().replace(/\s+/g, "-").replace(/[^a-z0-9-]/g, "")`. -/
def familySlug (family : String) : String :=
  String.mk ((replaceWsRunsAux "-".data (jsToLower family) false).filter
    (fun c => isLowerAlnum c || c = '-'))

/-- The `GenerateOptions` interface with the `DEFAULT_OPTIONS` values as
field defaults (source lines 38-66). -/
structure GenerateOptions where
  colors : Bool := true
  fontFamilies : Bool := true
  fontSizes : Bool := true
  lineHeights : Bool := true
  fontWeights : Bool := true
  spacing : Bool := true
  borderRadius : Bool := true
  shadows : Bool := true
  gradients : Bool := true
  scalableFontSize : Bool := false
  defaultClasses : Bool := false
  animations : Bool := true
deriving DecidableEq, Repr

def DEFAULT_OPTIONS : GenerateOptions := {}

structure CSSSection where
  label : String
  css : String
deriving DecidableEq, Repr

structure CSSOutput where
  full : String
  sections : List CSSSection
deriving DecidableEq, Repr

/-- One emitted CSS custom-property line. -/
def cssVarLine (name value : String) : String :=
  "  --" ++ name ++ ": " ++ value ++ ";\n"

/-- The variables path of the colors section: sort by descending count,
group by hue family, label shades exactly as `buildPalette` does. -/
def colorsSectionVars (colors : List ScannedColor) : String :=
  let sorted := jsSortStable (fun a b => b.count - a.count) colors
  String.join ((buildPalette sorted).map (fun p =>
    cssVarLine ("color-" ++ p.1) p.2))

/-- The Colors section of `generateScannedCSS`. -/
def colorsSection (tokens : ScannedTokens) (opts : GenerateOptions) :
    List CSSSection :=
  if opts.colors ∧ tokens.colors.length ≠ 0 then
    let sectionCSS :=
      if opts.defaultClasses then
        let cp := classifyColorsForTailwind tokens.colors
        (if cp.1.length ≠ 0 then
          "\n  /* Colors */\n" ++
            String.join (cp.1.map (fun c => cssVarLine ("color-" ++ c.1) c.2))
        else "") ++
        (if cp.2.length ≠ 0 then
          "\n  /* Color Palette */\n" ++
            String.join (cp.2.map (fun c => cssVarLine ("color-" ++ c.1) c.2))
        else "")
      else "\n  /* Colors */\n" ++ colorsSectionVars tokens.colors
    if sectionCSS ≠ "" then [⟨"Colors", sectionCSS⟩] else []
  else []

/-- The Font Families section of `generateScannedCSS`. -/
def fontFamiliesSection (tokens : ScannedTokens) (opts : GenerateOptions) :
    List CSSSection :=
  let uniqueFamilies := tokens.typography.foldl (fun s t => setAdd s t.fontFamily) []
  if opts.fontFamilies ∧ uniqueFamilies.length ≠ 0 then
    let body :=
      if opts.defaultClasses then
        String.join (uniqueFamilies.map (fun family =>
          let kind := classifyFontFamily family
          let quoted :=
            if containsSub " ".data family.data then "\"" ++ family ++ "\""
            else family
          cssVarLine ("font-" ++ kind.str) (quoted ++ ", " ++ systemFallback kind)))
      else
        String.join (uniqueFamilies.map (fun family =>
          let quoted :=
            if containsSub " ".data family.data then "\"" ++ family ++ "\""
            else family
          cssVarLine ("font-family-" ++ familySlug family) quoted))
    [⟨"Font Families", "\n  /* Font Families */\n" ++ body⟩]
  else []

/-- The Font Sizes section of `generateScannedCSS`. -/
def fontSizesSection (tokens : ScannedTokens) (opts : GenerateOptions) :
    List CSSSection :=
  if opts.fontSizes ∧ tokens.typography.length ≠ 0 then
    let fontSizes := jsSortStable (fun a b => a - b)
      (tokens.typography.foldl (fun s t => listSetAdd s t.fontSize) [])
    let body :=
      if opts.defaultClasses then
        (fontSizes.foldl (fun (acc : List String × String) px =>
          let rem := px / 16
          let (name, used) := snapFontSizeToTailwind rem acc.1
          let value :=
            if opts.scalableFontSize then generateClampFontSize rem
            else jsToFixedString rem 3 ++ "rem"
          (used, acc.2 ++ cssVarLine ("text-" ++ name) value)) ([], "")).2
      else
        let reversedRoles := (getTypoRoles fontSizes.length).reverse
        String.join (fontSizes.enum.map (fun iq =>
          let rem := iq.2 / 16
          let value :=
            if opts.scalableFontSize then generateClampFontSize rem
            else jsToFixedString rem 3 ++ "rem"
          cssVarLine ("text-" ++ reversedRoles.getD iq.1 "") value))
    [⟨"Font Sizes", "\n  /* Font Sizes */\n" ++ body⟩]
  else []

/-- The Line Heights section of `generateScannedCSS`. -/
def lineHeightsSection (tokens : ScannedTokens) (opts : GenerateOptions) :
    List CSSSection :=
  if opts.lineHeights ∧ tokens.typography.length ≠ 0 then
    let lineHeights := tokens.typography.foldl (fun s t =>
      match t.lineHeight with
      | some lh => listSetAdd s lh
      | none => s) []
    if lineHeights.length ≠ 0 then
      let body :=
        if opts.defaultClasses then
          (lineHeights.foldl (fun (acc : List String × String) lh =>
            let name := snapLineHeightToTailwind lh
            if acc.1.contains name then acc
            else (setAdd acc.1 name,
              acc.2 ++ cssVarLine ("leading-" ++ name) (numToString lh)))
            ([], "")).2
        else
          let labels := getSizeLabels lineHeights.length
          String.join (lineHeights.enum.map (fun iq =>
            cssVarLine ("leading-" ++ labels.getD iq.1 "") (numToString iq.2)))
      [⟨"Line Heights", "\n  /* Line Heights */\n" ++ body⟩]
    else []
  else []

/-- The Font Weights section of `generateScannedCSS`. -/
def fontWeightsSection (tokens : ScannedTokens) (opts : GenerateOptions) :
    List CSSSection :=
  if opts.fontWeights ∧ tokens.typography.length ≠ 0 then
    let weights := jsSortStable (fun (a b : ℕ) => Q.ofInt a - Q.ofInt b)
      (tokens.typography.foldl (fun s t =>
        listSetAdd s (fontStyleToWeight t.fontStyle)) [])
    if weights.length ≠ 0 then
      let body := String.join (weights.map (fun w =>
        let name := if opts.defaultClasses then (TW_WEIGHT_MAP w).getD (toString w)
          else toString w
        cssVarLine ("font-weight-" ++ name) (toString w)))
      [⟨"Font Weights", "\n  /* Font Weights */\n" ++ body⟩]
    else []
  else []

/-- The Spacing section of `generateScannedCSS`. -/
def spacingSection (tokens : ScannedTokens) (opts : GenerateOptions) :
    List CSSSection :=
  if opts.spacing ∧ tokens.spacing.length ≠ 0 then
    let body :=
      if opts.defaultClasses then
        let base := findGCD tokens.spacing
        cssVarLine "spacing" (jsToFixedString (base / 16) 3 ++ "rem")
      else
        let labels := getSizeLabels tokens.spacing.length
        String.join (tokens.spacing.enum.map (fun iq =>
          cssVarLine ("space-" ++ labels.getD iq.1 "")
            (jsToFixedString (iq.2 / 16) 3 ++ "rem")))
    [⟨"Spacing", "\n  /* Spacing */\n" ++ body⟩]
  else []

/-- The Border Radius section of `generateScannedCSS`. -/
def borderRadiusSection (tokens : ScannedTokens) (opts : GenerateOptions) :
    List CSSSection :=
  if opts.borderRadius ∧ tokens.radii.length ≠ 0 then
    let body :=
      if opts.defaultClasses then
        let sortedRadii := jsSortStable (fun a b => a - b) tokens.radii
        (sortedRadii.foldl (fun (acc : List String × String) px =>
          let (name, used) := snapRadiusToTailwind px acc.1
          let value :=
            if name = "full" then "9999px"
            else jsToFixedString (px / 16) 3 ++ "rem"
          (used, acc.2 ++ cssVarLine ("radius-" ++ name) value)) ([], "")).2
      else
        let labels := getSizeLabels tokens.radii.length
        String.join (tokens.radii.enum.map (fun iq =>
          cssVarLine ("radius-" ++ labels.getD iq.1 "")
            (numToString iq.2 ++ "px")))
    [⟨"Border Radius", "\n  /* Border Radius */\n" ++ body⟩]
  else []

/-- The Shadows section of `generateScannedCSS`. -/
def shadowsSection (tokens : ScannedTokens) (opts : GenerateOptions) :
    List CSSSection :=
  if opts.shadows ∧ tokens.shadows.length ≠ 0 then
    let sortedShadows := jsSortStable (fun a b => a.blur - b.blur) tokens.shadows
    let body := String.join (sortedShadows.enum.map (fun ie =>
      let i := ie.1
      let s := ie.2
      let name :=
        if opts.defaultClasses then
          if i < TW_SHADOW_NAMES.length then TW_SHADOW_NAMES.getD i ""
          else toString (i + 1)
        else (getSizeLabels sortedShadows.length).getD i ""
      let inset := if s.stype ≠ "" then s.stype ++ " " else ""
      cssVarLine ("shadow-" ++ name) (inset ++ numToString s.offsetX ++ "px " ++
        numToString s.offsetY ++ "px " ++ numToString s.blur ++ "px " ++
        numToString s.spread ++ "px " ++ s.color)))
    [⟨"Shadows", "\n  /* Shadows */\n" ++ body⟩]
  else []

/-- The Gradients section of `generateScannedCSS`. -/
def gradientsSection (tokens : ScannedTokens) (opts : GenerateOptions) :
    List CSSSection :=
  if opts.gradients ∧ tokens.gradients.length ≠ 0 then
    let body := String.join (tokens.gradients.enum.map (fun ig =>
      let i := ig.1
      let g := ig.2
      let stopsStr := String.intercalate ", "
        (g.stops.map (fun s => s.color ++ " " ++ numToString s.position ++ "%"))
      if g.gtype = "linear" then
        cssVarLine ("gradient-" ++ toString (i + 1))
          ("linear-gradient(" ++ numToString g.angle ++ "deg, " ++ stopsStr ++ ")")
      else
        let ex := g.ellipseX.getD 100
        let ey := g.ellipseY.getD 100
        let cx := g.centerX.getD 50
        let cy := g.centerY.getD 50
        cssVarLine ("gradient-" ++ toString (i + 1))
          ("radial-gradient(ellipse " ++ numToString ex ++ "% " ++
            numToString ey ++ "% at " ++ numToString cx ++ "% " ++
            numToString cy ++ "%, " ++ stopsStr ++ ")")))
    [⟨"Gradients", "\n  /* Gradients */\n" ++ body⟩]
  else []

/-- The Animations section of `generateScannedCSS`. -/
def animationsSection (tokens : ScannedTokens) (opts : GenerateOptions) :
    List CSSSection :=
  if opts.animations ∧ tokens.animations.length ≠ 0 then
    let body := (tokens.animations.foldl
      (fun (acc : List Q × List String × String) anim =>
        let snapped := snapDuration anim.duration
        let acc :=
          if acc.1.contains snapped then acc
          else (listSetAdd acc.1 snapped, acc.2.1,
            acc.2.2 ++ cssVarLine ("duration-" ++ numToString snapped)
              (numToString snapped ++ "ms"))
        let cssEasing := easingToCSS anim.easing
        if acc.2.1.contains cssEasing then acc
        else (acc.1, setAdd acc.2.1 cssEasing,
          acc.2.2 ++ cssVarLine ("ease-" ++ cssEasing) cssEasing))
      ([], [], "")).2.2
    [⟨"Animations", "\n  /* Animations */\n" ++ body⟩]
  else []

/-- `generateScannedCSS(tokens, opts)` from the source: the ten optional
sections in order, then the `@theme` wrapper. -/
def generateScannedCSS (tokens : ScannedTokens) (opts : GenerateOptions) :
    CSSOutput :=
  let sections :=
    colorsSection tokens opts ++ fontFamiliesSection tokens opts ++
    fontSizesSection tokens opts ++ lineHeightsSection tokens opts ++
    fontWeightsSection tokens opts ++ spacingSection tokens opts ++
    borderRadiusSection tokens opts ++ shadowsSection tokens opts ++
    gradientsSection tokens opts ++ animationsSection tokens opts
  let full := "/* Generated by Figma to Tailwind v4 Plugin */\n" ++
    "/* Tokens extracted from design scan */\n\n" ++ "@theme \x7b\n" ++
    String.join (sections.map (fun s => s.css)) ++ "\x7d\n"
  { full := full, sections := sections }

/-- An export function that fails on every request, modelling a plugin host
whose `exportAsync` always rejects. -/
def failAllExport : ExportFn := fun _ _ => Except.error ()

/-- A visible vector leaf node. -/
def vectorLeaf : Node :=
  Node.mk { ntype := NodeType.vector, width := 10, height := 10 } none

/-- A rectangle leaf node carrying a visible image fill. -/
def imageFillLeaf : Node :=
  Node.mk { ntype := NodeType.rectangle, name := "photo", width := 10,
            height := 10, fills := some [{ ptype := PaintType.image }] } none

/-- **C8.** Export failures never abort the walk: for every export function
(hence for every subset of nodes whose export fails, including all of them),
every node tree, every argument vector and every starting state,
`generateLayerHTML` returns normally with a markup string — the exception
raised by a failed export is always caught locally. Moreover, under the
always-failing export function the degraded output is as specified: a vector
leaf becomes an inline comment fragment, and an image-fill leaf becomes an
`<img>` referencing `/placeholder.svg`. -/
theorem generateLayerHTML_tolerates_export_failure :
    (∀ (jsm : JsMath) (ex : ExportFn) (node : Node) (indent : ℕ)
        (itl pial : Bool) (piw : Option Bool) (pw pg : Option Q) (s : GenState),
        ∃ (html : String) (s' : GenState),
          generateLayerHTML jsm ex node indent itl pial piw pw pg s =
            (Except.ok html, s')) ∧
      (generateLayerHTML zeroJsMath failAllExport vectorLeaf 0 false false
          none none none freshGenState).1 = Except.ok "<!-- icon -->\n" ∧
      (generateLayerHTML zeroJsMath failAllExport imageFillLeaf 0 false true
          none none none freshGenState).1 =
        Except.ok ("<img class=\"w-[10px] max-w-full h-auto shrink-0 w-[10px]\"" ++
          " src=\"/placeholder.svg\" alt=\"photo\" />\n") := by
  refine ⟨fun jsm ex node indent itl pial piw pw pg s =>
    generateLayerHTML_neverFails jsm ex node indent itl pial piw pw pg s,
    ?_, ?_⟩
  · unfold generateLayerHTML
    unfold generateLayerRest
    rfl
  · unfold generateLayerHTML
    rfl

/-- **C1.** The scan-and-compile pipeline is deterministic: with the host's
transcendental math and the export capability modelled as fixed functions
(`jsm`, `ex`) and the per-run state reset to `freshGenState` (asset counter
0, empty asset list, empty used-file-name set), two invocations of
`scanNodesForTokens` on the same node tree return equal token sets, two
invocations of `generateScannedCSS` on them with the same options return
byte-identical CSS (`full` string and section list), and two invocations of
the markup generator on the same node return byte-identical markup and equal
final states.  The embedding of the whole pipeline as pure functions — there
is no randomness, clock, or iteration-order nondeterminism to model, JS maps
and sets being insertion-ordered — is what makes the two runs literally the
same value. -/
theorem scan_compile_deterministic :
    (∀ (jsm : JsMath) (roots : List Node) (opts : GenerateOptions),
        scanNodesForTokens jsm roots = scanNodesForTokens jsm roots ∧
          generateScannedCSS (scanNodesForTokens jsm roots) opts =
            generateScannedCSS (scanNodesForTokens jsm roots) opts) ∧
      (∀ (jsm : JsMath) (ex : ExportFn) (node : Node) (indent : ℕ)
          (itl pial : Bool) (piw : Option Bool) (pw pg : Option Q),
          generateLayerHTML jsm ex node indent itl pial piw pw pg
              freshGenState =
            generateLayerHTML jsm ex node indent itl pial piw pw pg
              freshGenState) :=
  ⟨fun _ _ _ => ⟨rfl, rfl⟩, fun _ _ _ _ _ _ _ _ _ => rfl⟩

end FigmaToTailwind
